import Mathlib

/-!
Verification of the configuration-precedence core of the `cli_base` repository.

The Python source keeps all configuration state in JSON documents (Python
dicts produced by `json.load`).  We embed JSON values as the inductive type
`JValue`; a JSON object is an insertion-ordered association list, exactly the
observable behaviour of a Python 3.7+ dict.  Python dict primitives
(`d[k]`, `d[k] = v`, `del d[k]`, `k in d`) are translated by `jlookup`,
`jset`, `jerase` and `pyContains`; fallible Python operations (KeyError,
TypeError, ValueError, AttributeError) are translated into `Except String`.
-/

/-- A JSON value, as produced by Python's `json.load`.  Objects are
insertion-ordered association lists with string keys. -/
inductive JValue where
  | null : JValue
  | bool : Bool → JValue
  | num : Int → JValue
  | str : String → JValue
  | arr : List JValue → JValue
  | obj : List (String × JValue) → JValue
deriving Repr

/-- A JSON object / Python dict body: an insertion-ordered association list. -/
abbrev Dict := List (String × JValue)

/-- Python `d.get(k)` / `k in d` support: first value bound to `k`. -/
def jlookup : Dict → String → Option JValue
  | [], _ => none
  | (k', v) :: rest, k => if k' = k then some v else jlookup rest k

/-- Python `d[k] = v`: replace the value in place if the key exists
(keeping its position), otherwise append the new binding. -/
def jset : Dict → String → JValue → Dict
  | [], k, v => [(k, v)]
  | (k', w) :: rest, k, v =>
      if k' = k then (k, v) :: rest else (k', w) :: jset rest k v

/-- Python `del d[k]`. -/
def jerase (d : Dict) (k : String) : Dict :=
  d.filter (fun p => !(p.1 == k))

/-- Structural equality test on JSON values, mirroring Python `==` on values
loaded from JSON. -/
def JValue.beq : JValue → JValue → Bool
  | .null, .null => true
  | .bool a, .bool b => a == b
  | .num a, .num b => a == b
  | .str a, .str b => a == b
  | .arr [], .arr [] => true
  | .arr (x :: xs), .arr (y :: ys) => JValue.beq x y && JValue.beq (.arr xs) (.arr ys)
  | .obj [], .obj [] => true
  | .obj ((k, v) :: xs), .obj ((k', v') :: ys) =>
      k == k' && JValue.beq v v' && JValue.beq (.obj xs) (.obj ys)
  | _, _ => false
termination_by a _ => sizeOf a
decreasing_by all_goals (simp_wf; try omega)

instance : BEq JValue := ⟨JValue.beq⟩

/-- Python truthiness of a JSON value (`if v:`): `None`, `False`, `0`, `""`,
`[]` and `{}` are falsy. -/
def pyTruthy : JValue → Bool
  | .null => false
  | .bool b => b
  | .num n => n != 0
  | .str s => s ≠ ""
  | .arr xs => !xs.isEmpty
  | .obj d => !d.isEmpty

/-- Python `x is not None` applied to `d.get(k)` (absent key yields `None`). -/
def isNotNone : Option JValue → Bool
  | none => false
  | some .null => false
  | some _ => true

/-- Python substring test `needle in hay` on lists of characters. -/
def listSubstr (needle hay : List Char) : Bool :=
  hay.tails.any (fun t => needle.isPrefixOf t)

/-- Python substring test `needle in hay` on strings. -/
def pySubstr (needle hay : String) : Bool :=
  listSubstr needle.data hay.data

/-- Python `k in v` for a string key `k`: key membership for dicts, substring
for strings, element membership for lists, `TypeError` otherwise. -/
def pyContains (k : String) : JValue → Except String Bool
  | .obj d => .ok (jlookup d k).isSome
  | .str s => .ok (pySubstr k s)
  | .arr xs => .ok (xs.any (fun v => JValue.beq v (.str k)))
  | _ => .error "TypeError: argument is not iterable"

/-- Python subscription `v[k]` with a string key: `KeyError` when the key is
missing, `TypeError` when `v` is not a dict. -/
def pyIndex : JValue → String → Except String JValue
  | .obj d, k =>
      match jlookup d k with
      | some v => .ok v
      | none => .error ("KeyError: " ++ k)
  | _, _ => .error "TypeError: value is not subscriptable by a string"

/-- Python `d[k]` on a dict known to be a dict: `KeyError` when missing. -/
def pyDictGet (d : Dict) (k : String) : Except String JValue :=
  match jlookup d k with
  | some v => .ok v
  | none => .error ("KeyError: " ++ k)

/-- Require a JSON value to be an object; other shapes raise in Python as
soon as a dict operation is attempted on them. -/
def asObj : JValue → Except String Dict
  | .obj d => .ok d
  | _ => .error "TypeError: value is not a dict"

/-- RTSettings._deep_merge / AdvancedRTSettings._deep_merge (identical code):
`result = dict1.copy()`, then for each binding of `dict2`, recurse when both
sides hold dicts and overwrite otherwise. -/
def deep_merge : Dict → Dict → Dict
  | d1, [] => d1
  | d1, (k, v) :: rest =>
      match jlookup d1 k, v with
      | some (.obj o1), .obj o2 => deep_merge (jset d1 k (.obj (deep_merge o1 o2))) rest
      | _, _ => deep_merge (jset d1 k v) rest
termination_by _ d2 => sizeOf d2
decreasing_by all_goals (simp_wf; try omega)

/-- RTSettings.DEFAULT_CONFIG: the built-in default configuration document. -/
def DEFAULT_CONFIG_RT : Dict :=
  [("profiles", .obj [("llm", .obj []), ("database", .obj [])]),
   ("defaults", .obj [("llm", .null), ("database", .null)]),
   ("settings", .obj [("output_format", .str "json"),
                      ("color_theme", .str "dark"),
                      ("log_level", .str "info")])]

/-- AdvancedRTSettings.DEFAULT_CONFIG: same as the RTSettings defaults plus an
empty `commands` section for command-specific parameter overrides. -/
def DEFAULT_CONFIG_ADV : Dict :=
  [("profiles", .obj [("llm", .obj []), ("database", .obj [])]),
   ("defaults", .obj [("llm", .null), ("database", .null)]),
   ("settings", .obj [("output_format", .str "json"),
                      ("color_theme", .str "dark"),
                      ("log_level", .str "info")]),
   ("commands", .obj [])]

/-- Truthiness of `self.named_config` (`None` or a dict in the source):
falsy when `None` and when the dict is empty. -/
def namedTruthy : Option Dict → Bool
  | none => false
  | some d => !d.isEmpty

/-- Unwrap `self.named_config` inside a branch where it is truthy. -/
def namedDict : Option Dict → Dict
  | none => []
  | some d => d

/-- Test `self.cli_args.get("scope", "local") == "global"` from both
`_build_runtime_context` implementations. -/
def scopeIsGlobal (cli : Dict) : Bool :=
  match jlookup cli "scope" with
  | some v => JValue.beq v (.str "global")
  | none => false

/-- RTSettings._build_runtime_context as a function of the loaded documents
and CLI arguments.  With `--file`, merge defaults → global → local → named
(falling back to the local precedence when the named document is missing or
empty); with `--global`, merge defaults → global only; otherwise merge
defaults → global → local.  The scope tag and the raw CLI argument dict are
then stored under `current_scope` and `cli_args`. -/
def build_runtime_context (g l : Dict) (n : Option Dict) (cli : Dict) : Dict :=
  let hasFileOption := isNotNone (jlookup cli "file_path")
  if hasFileOption then
    if namedTruthy n then
      jset (jset (deep_merge (deep_merge (deep_merge DEFAULT_CONFIG_RT g) l) (namedDict n))
        "current_scope" (.str "file")) "cli_args" (.obj cli)
    else
      jset (jset (deep_merge (deep_merge DEFAULT_CONFIG_RT g) l)
        "current_scope" (.str "local")) "cli_args" (.obj cli)
  else if scopeIsGlobal cli then
    jset (jset (deep_merge DEFAULT_CONFIG_RT g)
      "current_scope" (.str "global")) "cli_args" (.obj cli)
  else
    jset (jset (deep_merge (deep_merge DEFAULT_CONFIG_RT g) l)
      "current_scope" (.str "local")) "cli_args" (.obj cli)

/-- The Python whitespace characters stripped by `str.strip()`. -/
def isPySpace (c : Char) : Bool :=
  c == ' ' || c == '\t' || c == '\n' || c == '\r' || c == '\x0b' || c == '\x0c'

/-- Python `s.strip()`: drop leading and trailing whitespace. -/
def pyStrip (s : List Char) : List Char :=
  (((s.dropWhile isPySpace).reverse).dropWhile isPySpace).reverse

/-- Python `s.split(sep)` for a one-character separator: split at every
occurrence, keeping empty pieces (`""` splits to `[""]`). -/
def pySplit (sep : Char) : List Char → List Char → List (List Char)
  | [], acc => [acc.reverse]
  | c :: rest, acc =>
      if c == sep then acc.reverse :: pySplit sep rest []
      else pySplit sep rest (c :: acc)

/-- Python `sep.join(pieces)` for a one-character separator. -/
def pyJoin (sep : Char) : List (List Char) → List Char
  | [] => []
  | [x] => x
  | x :: xs => x ++ sep :: pyJoin sep xs

/-- Python `s.lower()` (ASCII case folding). -/
def pyLower (s : List Char) : List Char :=
  s.map Char.toLower

/-- The `sys.argv` entry that AdvancedRTSettings.__init__ injects into
`cli_args` (a Python list of strings; absent key defaults to `[]`). -/
def advSysArgv (cli : Dict) : List String :=
  match jlookup cli "sys.argv" with
  | some (.arr xs) => xs.filterMap (fun v => match v with | JValue.str s => some s | _ => none)
  | _ => []

/-- The scope flags that AdvancedRTSettings._build_runtime_context derives
from the raw `sys.argv` strings and the resolved CLI arguments: whether the
global scope was selected, whether a configuration file was requested
(`use_file and file_path is not None`), and whether the chosen `file_path`
value is truthy (the guard of the disk re-read). -/
def advFlags (cli : Dict) : Bool × Bool × Bool :=
  let argv := advSysArgv cli
  let argvStr := pyJoin ' ' (argv.map String.data)
  let useGlobal0 := listSubstr "--global".data argvStr
  let useFile0 := listSubstr "--file".data argvStr
  let fp0 : Option JValue :=
    if useFile0 then
      match argv.findIdx? (· == "--file") with
      | some i => (argv[i+1]?).map JValue.str
      | none => none
    else none
  let useGlobal := useGlobal0 || scopeIsGlobal cli
  let fileArgs :=
    match jlookup cli "file_path" with
    | some v => if pyTruthy v then (true, some v) else (useFile0, fp0)
    | none => (useFile0, fp0)
  let useFile := fileArgs.1
  let fp := fileArgs.2
  let hasFileOption := useFile && fp.isSome
  (useGlobal, hasFileOption, (fp.map pyTruthy).getD false)

/-- The scope-dispatch of AdvancedRTSettings._build_runtime_context, given
the already-settled flags and named document: merge
defaults → global → local → named under the file option (falling back to the
local precedence when the named document is falsy), defaults → global under
the global flag, and defaults → global → local otherwise, then store the
scope tag and the raw CLI arguments. -/
def advContextCore (g l : Dict) (n' : Option Dict) (cli : Dict)
    (useGlobal hasFileOption : Bool) : Dict :=
  if hasFileOption then
    if namedTruthy n' then
      jset (jset (deep_merge (deep_merge (deep_merge DEFAULT_CONFIG_ADV g) l) (namedDict n'))
        "current_scope" (.str "file")) "cli_args" (.obj cli)
    else
      jset (jset (deep_merge (deep_merge DEFAULT_CONFIG_ADV g) l)
        "current_scope" (.str "local")) "cli_args" (.obj cli)
  else if useGlobal then
    jset (jset (deep_merge DEFAULT_CONFIG_ADV g)
      "current_scope" (.str "global")) "cli_args" (.obj cli)
  else
    jset (jset (deep_merge (deep_merge DEFAULT_CONFIG_ADV g) l)
      "current_scope" (.str "local")) "cli_args" (.obj cli)

/-- AdvancedRTSettings._build_runtime_context.  Besides the resolved CLI
arguments it inspects the raw `sys.argv` strings for `--global` and
`--file` (see `advFlags`), and when a file is requested while
`self.named_config` is falsy it re-reads the named file from disk;
`reloaded` stands for the outcome of that read (`none`: file missing or
unreadable, in which case the source keeps a falsy `named_config`).
Returns the new context together with the possibly-updated `named_config`. -/
def adv_build_runtime_context (g l : Dict) (n : Option Dict) (cli : Dict)
    (reloaded : Option Dict) : Dict × Option Dict :=
  let useGlobal := (advFlags cli).1
  let hasFileOption := (advFlags cli).2.1
  let fpTruthy := (advFlags cli).2.2
  let n' :=
    if hasFileOption && fpTruthy && !namedTruthy n then
      match reloaded with
      | some d => some d
      | none => n
    else n
  (advContextCore g l n' cli useGlobal hasFileOption, n')

/-- The advanced effective context when the rebuild performs no disk re-read. -/
def advContext (g l : Dict) (n : Option Dict) (cli : Dict) : Dict :=
  (adv_build_runtime_context g l n cli none).1

/-- Outcome of attempting to read and parse one configuration file:
missing file, JSON decode error, other I/O failure, or a parsed document. -/
inductive FileResult where
  | absent : FileResult
  | badJson : FileResult
  | ioFail : FileResult
  | good : Dict → FileResult
deriving Repr

/-- Loading the global or local configuration in `_load_configurations`
(identical in RTSettings and AdvancedRTSettings): a missing file keeps the
default, a `JSONDecodeError` is caught and keeps the default, any other I/O
failure propagates. -/
def load_scope_config (dflt : Dict) : FileResult → Except String Dict
  | .absent => .ok dflt
  | .badJson => .ok dflt
  | .ioFail => .error "IOError"
  | .good d => .ok d

/-- Loading the named configuration in `_load_configurations`: only attempted
when `cli_args.get("file_path")` is truthy; a missing file or a caught
`JSONDecodeError` leaves `named_config` as `None`. -/
def load_named_config (cli : Dict) : FileResult → Except String (Option Dict)
  | fr =>
    match jlookup cli "file_path" with
    | some v =>
        if pyTruthy v then
          match fr with
          | .absent => .ok none
          | .badJson => .ok none
          | .ioFail => .error "IOError"
          | .good d => .ok (some d)
        else .ok none
    | none => .ok none

/-- The in-memory state of an RTSettings object: the three loaded documents,
the named-file path (if a file was requested), the CLI arguments and the
effective context. -/
structure RTState where
  global_config : Dict
  local_config : Dict
  named_config : Option Dict
  named_config_path : Option JValue
  cli_args : Dict
  context : Dict

/-- RTSettings.__init__: load the configurations (given the outcome of each
file read) and build the runtime context. -/
def initRT (cli : Dict) (gfr lfr nfr : FileResult) : Except String RTState := do
  let g ← load_scope_config DEFAULT_CONFIG_RT gfr
  let l ← load_scope_config DEFAULT_CONFIG_RT lfr
  let n ← load_named_config cli nfr
  let path :=
    match jlookup cli "file_path" with
    | some v => if pyTruthy v then some v else none
    | none => none
  .ok { global_config := g, local_config := l, named_config := n,
        named_config_path := path, cli_args := cli,
        context := build_runtime_context g l n cli }

/-- RTSettings.get_config: the document for a scope; `ValueError` for an
unknown scope or for scope `file` when `named_config` is falsy. -/
def rt_get_config (st : RTState) (scope : String) : Except String Dict :=
  if scope = "global" then .ok st.global_config
  else if scope = "local" then .ok st.local_config
  else if scope = "file" && namedTruthy st.named_config then .ok (namedDict st.named_config)
  else .error ("Invalid scope: " ++ scope)

/-- Precondition of RTSettings.get_config_path (used by save_config):
a known scope, and for scope `file` a recorded named-file path. -/
def rtScopeOk (st : RTState) (scope : String) : Bool :=
  scope = "global" || scope = "local" || (scope = "file" && st.named_config_path.isSome)

/-- RTSettings.save_config: write the document (file system elided), replace
the document of the written scope, and rebuild the runtime context. -/
def rt_save_config (st : RTState) (config : Dict) (scope : String) :
    Except String RTState :=
  if rtScopeOk st scope then
    let g := if scope = "global" then config else st.global_config
    let l := if scope = "local" then config else st.local_config
    let n := if scope = "file" then some config else st.named_config
    .ok { st with global_config := g, local_config := l, named_config := n,
                  context := build_runtime_context g l n st.cli_args }
  else .error ("Invalid scope: " ++ scope)

/-- RTSettings.update_config: deep-merge the updates into the scope's
document and save it. -/
def rt_update_config (st : RTState) (updates : Dict) (scope : String) :
    Except String RTState := do
  let config ← rt_get_config st scope
  rt_save_config st (deep_merge config updates) scope

/-- Document transformation of create_profile (identical in both classes):
ensure the profile-type section exists, raise `ValueError` on a duplicate
name, and store the profile under `profile.get("name")`.  Profile names are
modelled as strings, the only keys JSON documents can carry; the source
would accept a non-string name and store it as a raw dict key. -/
def create_profile_doc (config : Dict) (ptype : String) (profile : Dict) :
    Except String Dict := do
  let profilesV ← pyDictGet config "profiles"
  let hasType ← pyContains ptype profilesV
  let profiles0 ← asObj profilesV
  let profiles := if hasType then profiles0 else jset profiles0 ptype (.obj [])
  match jlookup profile "name" with
  | some (.str nm) => do
      let sectionV ← pyDictGet profiles ptype
      let dup ← pyContains nm sectionV
      if dup then .error ("Profile already exists: " ++ nm)
      else do
        let sec ← asObj sectionV
        .ok (jset config "profiles" (.obj (jset profiles ptype (.obj (jset sec nm (.obj profile))))))
  | _ => .error "unmodelled: non-string profile name"

/-- Document transformation of edit_profile (identical in both classes):
`ValueError` when the type or name is missing, otherwise
`config["profiles"][ptype][name].update(updates)`. -/
def edit_profile_doc (config : Dict) (ptype nm : String) (updates : Dict) :
    Except String Dict := do
  let profilesV ← pyDictGet config "profiles"
  let hasType ← pyContains ptype profilesV
  if !hasType then .error ("Profile type not found: " ++ ptype)
  else do
    let sectionV ← pyIndex profilesV ptype
    let hasName ← pyContains nm sectionV
    if !hasName then .error ("Profile not found: " ++ nm)
    else do
      let profileV ← pyIndex sectionV nm
      let profile ← asObj profileV
      let profile' := updates.foldl (fun d p => jset d p.1 p.2) profile
      let profiles ← asObj profilesV
      let sec ← asObj sectionV
      .ok (jset config "profiles" (.obj (jset profiles ptype (.obj (jset sec nm (.obj profile'))))))

/-- Test `config["defaults"].get(profile_type) == name` from delete_profile. -/
def isDefaultHit (defaults : Dict) (ptype nm : String) : Bool :=
  match jlookup defaults ptype with
  | some v => JValue.beq v (.str nm)
  | none => false

/-- Document transformation of delete_profile (identical in both classes):
`ValueError` when the type or name is missing; delete the profile and, when
it was recorded as the default of its type, reset that default to `None`. -/
def delete_profile_doc (config : Dict) (ptype nm : String) :
    Except String Dict := do
  let profilesV ← pyDictGet config "profiles"
  let hasType ← pyContains ptype profilesV
  if !hasType then .error ("Profile type not found: " ++ ptype)
  else do
    let sectionV ← pyIndex profilesV ptype
    let hasName ← pyContains nm sectionV
    if !hasName then .error ("Profile not found: " ++ nm)
    else do
      let profiles ← asObj profilesV
      let sec ← asObj sectionV
      let config1 := jset config "profiles" (.obj (jset profiles ptype (.obj (jerase sec nm))))
      let defaultsV ← pyDictGet config1 "defaults"
      let defaults ← asObj defaultsV
      if isDefaultHit defaults ptype nm then
        .ok (jset config1 "defaults" (.obj (jset defaults ptype .null)))
      else
        .ok config1

/-- Document transformation of set_default_profile (identical in both
classes): `ValueError` when the type or name is missing, otherwise record
the name under `config["defaults"][profile_type]`. -/
def set_default_profile_doc (config : Dict) (ptype nm : String) :
    Except String Dict := do
  let profilesV ← pyDictGet config "profiles"
  let hasType ← pyContains ptype profilesV
  if !hasType then .error ("Profile type not found: " ++ ptype)
  else do
    let sectionV ← pyIndex profilesV ptype
    let hasName ← pyContains nm sectionV
    if !hasName then .error ("Profile not found: " ++ nm)
    else do
      let defaultsV ← pyDictGet config "defaults"
      let defaults ← asObj defaultsV
      .ok (jset config "defaults" (.obj (jset defaults ptype (.str nm))))

/-- Document transformation of set_setting (identical in both classes):
`config["settings"][setting_name] = value`. -/
def set_setting_doc (config : Dict) (nm : String) (v : JValue) :
    Except String Dict := do
  let settingsV ← pyDictGet config "settings"
  let settings ← asObj settingsV
  .ok (jset config "settings" (.obj (jset settings nm v)))

/-- RTSettings.create_profile. -/
def rt_create_profile (st : RTState) (ptype : String) (profile : Dict)
    (scope : String) : Except String RTState := do
  let config ← rt_get_config st scope
  let config' ← create_profile_doc config ptype profile
  rt_save_config st config' scope

/-- RTSettings.edit_profile (the edited profile it returns is elided). -/
def rt_edit_profile (st : RTState) (ptype nm : String) (updates : Dict)
    (scope : String) : Except String RTState := do
  let config ← rt_get_config st scope
  let config' ← edit_profile_doc config ptype nm updates
  rt_save_config st config' scope

/-- RTSettings.delete_profile. -/
def rt_delete_profile (st : RTState) (ptype nm : String) (scope : String) :
    Except String RTState := do
  let config ← rt_get_config st scope
  let config' ← delete_profile_doc config ptype nm
  rt_save_config st config' scope

/-- RTSettings.set_default_profile. -/
def rt_set_default_profile (st : RTState) (ptype nm : String) (scope : String) :
    Except String RTState := do
  let config ← rt_get_config st scope
  let config' ← set_default_profile_doc config ptype nm
  rt_save_config st config' scope

/-- RTSettings.set_setting. -/
def rt_set_setting (st : RTState) (nm : String) (v : JValue) (scope : String) :
    Except String RTState := do
  let config ← rt_get_config st scope
  let config' ← set_setting_doc config nm v
  rt_save_config st config' scope

/-- The in-memory state of an AdvancedRTSettings object: the documents and
CLI arguments as in RTSettings, plus the command path recorded from the
Click context. -/
structure AdvState where
  global_config : Dict
  local_config : Dict
  named_config : Option Dict
  named_config_path : Option JValue
  cli_args : Dict
  commandPath : Option String
  context : Dict

/-- AdvancedRTSettings.get_config (same code as RTSettings.get_config). -/
def adv_get_config (st : AdvState) (scope : String) : Except String Dict :=
  if scope = "global" then .ok st.global_config
  else if scope = "local" then .ok st.local_config
  else if scope = "file" && namedTruthy st.named_config then .ok (namedDict st.named_config)
  else .error ("Invalid scope: " ++ scope)

/-- Precondition of AdvancedRTSettings.get_config_path. -/
def advScopeOk (st : AdvState) (scope : String) : Bool :=
  scope = "global" || scope = "local" || (scope = "file" && st.named_config_path.isSome)

/-- AdvancedRTSettings.save_config: write the document, replace the written
scope's document, and rebuild the runtime context.  The rebuild may re-read
the named file from disk; `reloaded` is the outcome of that read. -/
def adv_save_config (st : AdvState) (config : Dict) (scope : String)
    (reloaded : Option Dict) : Except String AdvState :=
  if advScopeOk st scope then
    let g := if scope = "global" then config else st.global_config
    let l := if scope = "local" then config else st.local_config
    let n := if scope = "file" then some config else st.named_config
    let built := adv_build_runtime_context g l n st.cli_args reloaded
    .ok { st with global_config := g, local_config := l, named_config := built.2,
                  context := built.1 }
  else .error ("Invalid scope: " ++ scope)

/-- AdvancedRTSettings.update_config. -/
def adv_update_config (st : AdvState) (updates : Dict) (scope : String)
    (reloaded : Option Dict) : Except String AdvState := do
  let config ← adv_get_config st scope
  adv_save_config st (deep_merge config updates) scope reloaded

/-- AdvancedRTSettings.create_profile (same code as RTSettings). -/
def adv_create_profile (st : AdvState) (ptype : String) (profile : Dict)
    (scope : String) (reloaded : Option Dict) : Except String AdvState := do
  let config ← adv_get_config st scope
  let config' ← create_profile_doc config ptype profile
  adv_save_config st config' scope reloaded

/-- AdvancedRTSettings.edit_profile (same code as RTSettings). -/
def adv_edit_profile (st : AdvState) (ptype nm : String) (updates : Dict)
    (scope : String) (reloaded : Option Dict) : Except String AdvState := do
  let config ← adv_get_config st scope
  let config' ← edit_profile_doc config ptype nm updates
  adv_save_config st config' scope reloaded

/-- AdvancedRTSettings.delete_profile (same code as RTSettings). -/
def adv_delete_profile (st : AdvState) (ptype nm : String) (scope : String)
    (reloaded : Option Dict) : Except String AdvState := do
  let config ← adv_get_config st scope
  let config' ← delete_profile_doc config ptype nm
  adv_save_config st config' scope reloaded

/-- AdvancedRTSettings.set_default_profile (same code as RTSettings). -/
def adv_set_default_profile (st : AdvState) (ptype nm : String) (scope : String)
    (reloaded : Option Dict) : Except String AdvState := do
  let config ← adv_get_config st scope
  let config' ← set_default_profile_doc config ptype nm
  adv_save_config st config' scope reloaded

/-- AdvancedRTSettings.set_setting (same code as RTSettings). -/
def adv_set_setting (st : AdvState) (nm : String) (v : JValue) (scope : String)
    (reloaded : Option Dict) : Except String AdvState := do
  let config ← adv_get_config st scope
  let config' ← set_setting_doc config nm v
  adv_save_config st config' scope reloaded

/-- AdvancedRTSettings.get_command_config: the command-specific configuration
for the given (or current) command path, `{}` when there is none. -/
def adv_get_command_config (st : AdvState) (cmdPath : Option String) :
    Except String JValue :=
  let path : Option String :=
    match cmdPath with
    | some p => if p ≠ "" then some p else st.commandPath
    | none => st.commandPath
  match path with
  | none => .ok (.obj [])
  | some p =>
      if p = "" then .ok (.obj [])
      else
        match jlookup st.context "commands" with
        | none => .ok (.obj [])
        | some cv => do
            let mem ← pyContains p cv
            if mem then pyIndex cv p else .ok (.obj [])

/-- AdvancedRTSettings.get_param_value: CLI arguments, then the
command-specific configuration, then the general settings section, then the
caller-supplied default. -/
def adv_get_param_value (st : AdvState) (nm : String) (dflt : JValue) :
    Except String JValue :=
  match jlookup st.cli_args nm with
  | some v => .ok v
  | none => do
      let cmdConfig ← adv_get_command_config st none
      let mem ← pyContains nm cmdConfig
      if mem then pyIndex cmdConfig nm
      else do
        let settingsV ← pyDictGet st.context "settings"
        let mem2 ← pyContains nm settingsV
        if mem2 then pyIndex settingsV nm
        else .ok dflt

/-- The loop body of _apply_command_specific_config: copy each
command-config binding into `cli_args` unless the CLI already supplies a
value other than `None` for that key. -/
def applyCmdCfg (cli : Dict) (cmdCfg : Dict) : Dict :=
  cmdCfg.foldl
    (fun acc p =>
      match jlookup acc p.1 with
      | none => jset acc p.1 p.2
      | some .null => jset acc p.1 p.2
      | some _ => acc)
    cli

/-- AdvancedRTSettings._apply_command_specific_config: when the effective
context holds a configuration for the current command path, fold it into
`cli_args` via `applyCmdCfg`. -/
def adv_apply_command_specific_config (st : AdvState) : Except String AdvState :=
  match st.commandPath with
  | none => .ok st
  | some path =>
      if path = "" then .ok st
      else
      match jlookup st.context "commands" with
      | none => .ok st
      | some cv => do
          let mem ← pyContains path cv
          if mem then do
            let c ← pyIndex cv path
            match c with
            | .obj cfg => .ok { st with cli_args := applyCmdCfg st.cli_args cfg }
            | _ => .error "AttributeError: items"
          else .ok st

/-- Observable state of the ContextManager class attributes: the identity of
the singleton instance (tagged by a counter so that "same instance" is
expressible) and whether its `_settings` slot has been assigned. -/
structure CMState where
  instanceId : Option Nat
  settingsSet : Bool
  counter : Nat

/-- The ContextManager class state before anything runs. -/
def cmInit : CMState := { instanceId := none, settingsSet := false, counter := 0 }

/-- ContextManager.__new__ via `ContextManager()`: create the instance on
first construction, return the existing one afterwards. -/
def cmNew (s : CMState) : Nat × CMState :=
  match s.instanceId with
  | some i => (i, s)
  | none => (s.counter, { s with instanceId := some s.counter, counter := s.counter + 1 })

/-- ContextManager.initialize: construct (or reuse) the singleton and assign
its `_settings` slot. -/
def cmInitialize (s : CMState) : Nat × CMState :=
  let r := cmNew s
  (r.1, { r.2 with settingsSet := true })

/-- ContextManager.get_instance: `RuntimeError` when `_instance` is `None`. -/
def cmGetInstance (s : CMState) : Except String Nat :=
  match s.instanceId with
  | some i => .ok i
  | none => .error "ContextManager not initialized. Call initialize() first."

/-- The `settings` property: `RuntimeError` when `_settings` is `None`. -/
def cmSettings (s : CMState) : Except String Unit :=
  if s.settingsSet then .ok () else .error "Runtime settings not initialized."

/-- The state-changing entry points of ContextManager: direct construction
and the initialize classmethod. -/
inductive CMOp where
  | construct : CMOp
  | setup : CMOp
deriving Repr, DecidableEq

/-- Run one ContextManager entry point for its state effect. -/
def cmStep (s : CMState) : CMOp → CMState
  | .construct => (cmNew s).2
  | .setup => (cmInitialize s).2

/-- Run a sequence of ContextManager entry points from the pristine class
state. -/
def cmRun (ops : List CMOp) : CMState :=
  ops.foldl cmStep cmInit

/-- The completion markers scanned by ContentProcessor.process_with_llm. -/
def completionMarkers : List String :=
  ["that concludes", "in conclusion", "this completes",
   "end of document", "# conclusion", "## conclusion",
   "the end", "document end", "conversion complete", "is complete",
   "has been completed", "is now complete", "complete.", "completed.",
   "conversion is complete", "fully converted", "fully formatted",
   "finished", "all content has been", "all sections",
   "all provided content", "complete conversion"]

/-- The last `n` elements of a list (Python `xs[-n:]`). -/
def lastN {α : Type} (n : Nat) (xs : List α) : List α :=
  xs.drop (xs.length - n)

/-- The completion test of the continuation loop: one of the lowercase
markers occurs in the joined last five lines of the response
(`response.content.strip().split('\\n')[-5:]`, joined with spaces and
lowercased), or the literal `CONVERSION COMPLETE` occurs anywhere in the
response, or `complete` occurs in those last lines together with one of the
keywords. -/
def detectComplete (resp : String) : Bool :=
  let lastParagraphs := lastN 5 (pySplit '\n' (pyStrip resp.data) [])
  let lastText := pyLower (pyJoin ' ' lastParagraphs)
  completionMarkers.any (fun m => listSubstr m.data lastText)
  || pySubstr "CONVERSION COMPLETE" resp
  || (listSubstr "complete".data lastText
      && ["conversion", "all", "is", "now", "fully"].any (fun w => listSubstr w.data lastText))

/-- The `i`-th response examined by the continuation loop: the initial
conversion response for `i = 0`, the `i`-th continuation otherwise. -/
def respSeq (next : Nat → String) (r0 : String) (i : Nat) : String :=
  if i = 0 then r0 else next i

/-- The conversation-continuation loop of ContentProcessor.process_with_llm,
parameterised by the number of remaining iterations
(`maxCont - continuation_count`, so the `while continuation_count <
max_continuations` guard is `remaining > 0`): increment the counter, break
when the current response looks complete, otherwise request the next
continuation.  Returns the final counter and whether a completion marker was
detected. -/
def continuationGo (next : Nat → String) : Nat → Nat → String → Nat × Bool
  | 0, count, _ => (count, false)
  | remaining + 1, count, resp =>
      if detectComplete resp then (count + 1, true)
      else continuationGo next remaining (count + 1) (next (count + 1))

/-- The continuation loop as run by process_with_llm: counter starts at 0,
the first response examined is the initial conversion response. -/
def continuationLoop (maxCont : Nat) (next : Nat → String) (r0 : String) :
    Nat × Bool :=
  continuationGo next maxCont 0 r0

theorem jlookup_eq_none_iff (d : Dict) (k : String) :
    jlookup d k = none ↔ ∀ p ∈ d, p.1 ≠ k := by
  induction d with
  | nil => simp [jlookup]
  | cons p rest ih =>
      obtain ⟨pk, pv⟩ := p
      by_cases h : pk = k <;> simp [jlookup, h, ih]

/-- Per-key behaviour of Python dict assignment. -/
theorem jlookup_jset (d : Dict) (k : String) (v : JValue) (k' : String) :
    jlookup (jset d k v) k' = if k = k' then some v else jlookup d k' := by
  induction d with
  | nil =>
      by_cases h : k = k' <;> simp [jset, jlookup, h]
  | cons p rest ih =>
      obtain ⟨pk, pv⟩ := p
      by_cases h : pk = k
      · subst h
        by_cases h2 : pk = k' <;> simp [jset, jlookup, h2]
      · by_cases h2 : pk = k'
        · subst h2
          have h3 : ¬(k = pk) := fun he => h he.symm
          simp [jset, jlookup, h, h3]
        · simp [jset, jlookup, h, h2, ih]

/-- Overwriting the same key twice is the same as writing it once. -/
theorem jset_jset_same (d : Dict) (k : String) (v w : JValue) :
    jset (jset d k v) k w = jset d k w := by
  induction d with
  | nil => simp [jset]
  | cons p rest ih =>
      obtain ⟨pk, pv⟩ := p
      by_cases h : pk = k <;> simp [jset, h, ih]

/-- The per-key specification of the recursive dictionary merge: a key bound
in the later source overwrites the earlier binding, except that two nested
objects are merged recursively; keys absent from the later source keep the
earlier binding. -/
def mergedAt (a b : Option JValue) : Option JValue :=
  match a, b with
  | some (.obj o1), some (.obj o2) => some (.obj (deep_merge o1 o2))
  | _, some v => some v
  | _, none => a

/-- Per-key characterisation of `_deep_merge`, for a later source without
duplicate keys (Python dicts cannot carry duplicates). -/
theorem jlookup_deep_merge (d2 d1 : Dict) (k : String)
    (hnd : (d2.map Prod.fst).Nodup) :
    jlookup (deep_merge d1 d2) k = mergedAt (jlookup d1 k) (jlookup d2 k) := by
  induction d2 generalizing d1 with
  | nil =>
      simp only [deep_merge, jlookup]
      cases h1 : jlookup d1 k with
      | none => simp [mergedAt]
      | some val => cases val <;> simp [mergedAt]
  | cons p rest ih =>
      obtain ⟨pk, pv⟩ := p
      simp only [List.map_cons, List.nodup_cons] at hnd
      obtain ⟨hpk, hrest⟩ := hnd
      by_cases hk : pk = k
      · subst hk
        have hrnone : jlookup rest pk = none := by
          rw [jlookup_eq_none_iff]
          intro p hp he
          exact hpk (he ▸ List.mem_map_of_mem Prod.fst hp)
        have hd2 : jlookup ((pk, pv) :: rest) pk = some pv := by simp [jlookup]
        rw [hd2]
        rw [deep_merge.eq_def]
        cases h1 : jlookup d1 pk with
        | none =>
            cases pv <;>
              simp [ih _ hrest, mergedAt, hrnone, jlookup_jset, h1]
        | some val =>
            cases val <;> cases pv <;>
              simp [ih _ hrest, mergedAt, hrnone, jlookup_jset, h1]
      · have hd2 : jlookup ((pk, pv) :: rest) k = jlookup rest k := by
          simp [jlookup, hk]
        rw [hd2]
        rw [deep_merge.eq_def]
        cases h1 : jlookup d1 pk with
        | none =>
            cases pv <;>
              simp [ih _ hrest, mergedAt, jlookup_jset, hk, h1]
        | some val =>
            cases val <;> cases pv <;>
              simp [ih _ hrest, mergedAt, jlookup_jset, hk, h1]

theorem except_bind_ok {α β : Type} (a : α) (f : α → Except String β) :
    (Except.ok a >>= f) = f a := rfl

theorem except_bind_error {α β : Type} (e : String) (f : α → Except String β) :
    ((Except.error e : Except String α) >>= f) = Except.error e := rfl

/-- One step of `_deep_merge`: the treatment of a single binding of the
later source. -/
def mergeStep (d1 : Dict) (pk : String) (pv : JValue) : Dict :=
  match jlookup d1 pk, pv with
  | some (.obj o1), .obj o2 => jset d1 pk (.obj (deep_merge o1 o2))
  | _, _ => jset d1 pk pv

theorem deep_merge_nil (d1 : Dict) : deep_merge d1 [] = d1 := by
  rw [deep_merge.eq_def]

theorem deep_merge_cons (d1 : Dict) (pk : String) (pv : JValue) (rest : Dict) :
    deep_merge d1 ((pk, pv) :: rest) = deep_merge (mergeStep d1 pk pv) rest := by
  rw [deep_merge.eq_def]
  cases h1 : jlookup d1 pk with
  | none => cases pv <;> simp [mergeStep, h1]
  | some val => cases val <;> cases pv <;> simp [mergeStep, h1]

theorem mergeStep_eq_jset (d1 : Dict) (pk : String) (pv : JValue) :
    ∃ w, mergeStep d1 pk pv = jset d1 pk w := by
  unfold mergeStep
  cases h1 : jlookup d1 pk with
  | none => cases pv <;> exact ⟨_, rfl⟩
  | some val => cases val <;> cases pv <;> exact ⟨_, rfl⟩

theorem mergeStep_agree (d1 d1' : Dict) (S pk : String) (pv : JValue)
    (h : ∀ k, k ≠ S → jlookup d1 k = jlookup d1' k) :
    ∀ k, k ≠ S → jlookup (mergeStep d1 pk pv) k = jlookup (mergeStep d1' pk pv) k := by
  intro k hk
  by_cases hpk : pk = S
  · subst hpk
    obtain ⟨w, hw⟩ := mergeStep_eq_jset d1 pk pv
    obtain ⟨w', hw'⟩ := mergeStep_eq_jset d1' pk pv
    rw [hw, hw', jlookup_jset, jlookup_jset]
    have hne : ¬(pk = k) := fun he => hk (he ▸ rfl)
    rw [if_neg hne, if_neg hne]
    exact h k hk
  · have hEq := h pk hpk
    unfold mergeStep
    rw [hEq]
    cases h1 : jlookup d1' pk with
    | none => cases pv <;> simp [jlookup_jset, h k hk]
    | some val => cases val <;> cases pv <;> simp [jlookup_jset, h k hk]

/-- Merging the same later source into two earlier dictionaries that agree
away from one key yields results that agree away from that key. -/
theorem deep_merge_agree (d2 : Dict) (S : String) :
    ∀ d1 d1' : Dict, (∀ k, k ≠ S → jlookup d1 k = jlookup d1' k) →
      ∀ k, k ≠ S → jlookup (deep_merge d1 d2) k = jlookup (deep_merge d1' d2) k := by
  induction d2 with
  | nil =>
      intro d1 d1' h k hk
      rw [deep_merge_nil, deep_merge_nil]
      exact h k hk
  | cons p rest ih =>
      obtain ⟨pk, pv⟩ := p
      intro d1 d1' h k hk
      rw [deep_merge_cons, deep_merge_cons]
      exact ih _ _ (mergeStep_agree d1 d1' S pk pv h) k hk

theorem mergedAt_scalar (a : Option JValue) (v : JValue) (hv : ∀ o, v ≠ JValue.obj o) :
    mergedAt a (some v) = some v := by
  cases a with
  | none => cases v <;> simp [mergedAt]
  | some w => cases w <;> cases v <;> first | exact absurd rfl (hv _) | simp [mergedAt]

theorem mergedAt_none (a : Option JValue) : mergedAt a none = a := by
  cases a with
  | none => rfl
  | some w => cases w <;> rfl

/-- The context-freshness invariant of RTSettings: the stored effective
context is exactly what `_build_runtime_context` yields on the current
documents and CLI arguments. -/
def rtCtxInv (st : RTState) : Prop :=
  st.context = build_runtime_context st.global_config st.local_config
    st.named_config st.cli_args

/-- The context-freshness invariant of AdvancedRTSettings, with the disk
re-read of the rebuild taken to return nothing new. -/
def advCtxInv (st : AdvState) : Prop :=
  st.context = advContext st.global_config st.local_config
    st.named_config st.cli_args

theorem adv_build_fst (g l : Dict) (n : Option Dict) (cli : Dict) (r : Option Dict) :
    (adv_build_runtime_context g l n cli r).1
      = advContext g l (adv_build_runtime_context g l n cli r).2 cli := by
  unfold advContext adv_build_runtime_context
  by_cases h1 : (advFlags cli).2.1 <;>
    by_cases h2 : (advFlags cli).2.2 <;>
      by_cases h3 : namedTruthy n <;>
        cases r <;>
          simp [h1, h2, h3]

theorem rt_save_config_inv (st : RTState) (c : Dict) (scope : String)
    (st' : RTState) (h : rt_save_config st c scope = Except.ok st') :
    rtCtxInv st' := by
  unfold rt_save_config at h
  by_cases hok : rtScopeOk st scope
  · rw [if_pos hok] at h
    cases h
    rfl
  · rw [if_neg hok] at h
    exact Except.noConfusion h

theorem adv_save_config_inv (st : AdvState) (c : Dict) (scope : String)
    (r : Option Dict) (st' : AdvState)
    (h : adv_save_config st c scope r = Except.ok st') :
    advCtxInv st' := by
  unfold adv_save_config at h
  by_cases hok : advScopeOk st scope
  · rw [if_pos hok] at h
    cases h
    exact adv_build_fst _ _ _ _ _
  · rw [if_neg hok] at h
    exact Except.noConfusion h

theorem rt_update_config_inv (st : RTState) (u : Dict) (scope : String)
    (st' : RTState) (h : rt_update_config st u scope = Except.ok st') :
    rtCtxInv st' := by
  unfold rt_update_config at h
  cases hg : rt_get_config st scope with
  | error e => rw [hg, except_bind_error] at h; exact Except.noConfusion h
  | ok cfg =>
      rw [hg, except_bind_ok] at h
      exact rt_save_config_inv _ _ _ _ h

theorem rt_create_profile_inv (st : RTState) (ptype : String) (profile : Dict)
    (scope : String) (st' : RTState)
    (h : rt_create_profile st ptype profile scope = Except.ok st') :
    rtCtxInv st' := by
  unfold rt_create_profile at h
  cases hg : rt_get_config st scope with
  | error e => rw [hg, except_bind_error] at h; exact Except.noConfusion h
  | ok cfg =>
      rw [hg, except_bind_ok] at h
      cases hc : create_profile_doc cfg ptype profile with
      | error e => rw [hc, except_bind_error] at h; exact Except.noConfusion h
      | ok cfg' =>
          rw [hc, except_bind_ok] at h
          exact rt_save_config_inv _ _ _ _ h

theorem rt_edit_profile_inv (st : RTState) (ptype nm : String) (u : Dict)
    (scope : String) (st' : RTState)
    (h : rt_edit_profile st ptype nm u scope = Except.ok st') :
    rtCtxInv st' := by
  unfold rt_edit_profile at h
  cases hg : rt_get_config st scope with
  | error e => rw [hg, except_bind_error] at h; exact Except.noConfusion h
  | ok cfg =>
      rw [hg, except_bind_ok] at h
      cases hc : edit_profile_doc cfg ptype nm u with
      | error e => rw [hc, except_bind_error] at h; exact Except.noConfusion h
      | ok cfg' =>
          rw [hc, except_bind_ok] at h
          exact rt_save_config_inv _ _ _ _ h

theorem rt_delete_profile_inv (st : RTState) (ptype nm : String)
    (scope : String) (st' : RTState)
    (h : rt_delete_profile st ptype nm scope = Except.ok st') :
    rtCtxInv st' := by
  unfold rt_delete_profile at h
  cases hg : rt_get_config st scope with
  | error e => rw [hg, except_bind_error] at h; exact Except.noConfusion h
  | ok cfg =>
      rw [hg, except_bind_ok] at h
      cases hc : delete_profile_doc cfg ptype nm with
      | error e => rw [hc, except_bind_error] at h; exact Except.noConfusion h
      | ok cfg' =>
          rw [hc, except_bind_ok] at h
          exact rt_save_config_inv _ _ _ _ h

theorem rt_set_default_profile_inv (st : RTState) (ptype nm : String)
    (scope : String) (st' : RTState)
    (h : rt_set_default_profile st ptype nm scope = Except.ok st') :
    rtCtxInv st' := by
  unfold rt_set_default_profile at h
  cases hg : rt_get_config st scope with
  | error e => rw [hg, except_bind_error] at h; exact Except.noConfusion h
  | ok cfg =>
      rw [hg, except_bind_ok] at h
      cases hc : set_default_profile_doc cfg ptype nm with
      | error e => rw [hc, except_bind_error] at h; exact Except.noConfusion h
      | ok cfg' =>
          rw [hc, except_bind_ok] at h
          exact rt_save_config_inv _ _ _ _ h

theorem rt_set_setting_inv (st : RTState) (nm : String) (v : JValue)
    (scope : String) (st' : RTState)
    (h : rt_set_setting st nm v scope = Except.ok st') :
    rtCtxInv st' := by
  unfold rt_set_setting at h
  cases hg : rt_get_config st scope with
  | error e => rw [hg, except_bind_error] at h; exact Except.noConfusion h
  | ok cfg =>
      rw [hg, except_bind_ok] at h
      cases hc : set_setting_doc cfg nm v with
      | error e => rw [hc, except_bind_error] at h; exact Except.noConfusion h
      | ok cfg' =>
          rw [hc, except_bind_ok] at h
          exact rt_save_config_inv _ _ _ _ h

theorem initRT_inv (cli : Dict) (gfr lfr nfr : FileResult) (st : RTState)
    (h : initRT cli gfr lfr nfr = Except.ok st) : rtCtxInv st := by
  unfold initRT at h
  cases hg : load_scope_config DEFAULT_CONFIG_RT gfr with
  | error e => rw [hg, except_bind_error] at h; exact Except.noConfusion h
  | ok g =>
      rw [hg, except_bind_ok] at h
      cases hl : load_scope_config DEFAULT_CONFIG_RT lfr with
      | error e => rw [hl, except_bind_error] at h; exact Except.noConfusion h
      | ok l =>
          rw [hl, except_bind_ok] at h
          cases hn : load_named_config cli nfr with
          | error e => rw [hn, except_bind_error] at h; exact Except.noConfusion h
          | ok n =>
              rw [hn, except_bind_ok] at h
              cases h
              rfl

theorem adv_update_config_inv (st : AdvState) (u : Dict) (scope : String)
    (r : Option Dict) (st' : AdvState)
    (h : adv_update_config st u scope r = Except.ok st') : advCtxInv st' := by
  unfold adv_update_config at h
  cases hg : adv_get_config st scope with
  | error e => rw [hg, except_bind_error] at h; exact Except.noConfusion h
  | ok cfg =>
      rw [hg, except_bind_ok] at h
      exact adv_save_config_inv _ _ _ _ _ h

theorem adv_create_profile_inv (st : AdvState) (ptype : String) (profile : Dict)
    (scope : String) (r : Option Dict) (st' : AdvState)
    (h : adv_create_profile st ptype profile scope r = Except.ok st') :
    advCtxInv st' := by
  unfold adv_create_profile at h
  cases hg : adv_get_config st scope with
  | error e => rw [hg, except_bind_error] at h; exact Except.noConfusion h
  | ok cfg =>
      rw [hg, except_bind_ok] at h
      cases hc : create_profile_doc cfg ptype profile with
      | error e => rw [hc, except_bind_error] at h; exact Except.noConfusion h
      | ok cfg' =>
          rw [hc, except_bind_ok] at h
          exact adv_save_config_inv _ _ _ _ _ h

theorem adv_edit_profile_inv (st : AdvState) (ptype nm : String) (u : Dict)
    (scope : String) (r : Option Dict) (st' : AdvState)
    (h : adv_edit_profile st ptype nm u scope r = Except.ok st') :
    advCtxInv st' := by
  unfold adv_edit_profile at h
  cases hg : adv_get_config st scope with
  | error e => rw [hg, except_bind_error] at h; exact Except.noConfusion h
  | ok cfg =>
      rw [hg, except_bind_ok] at h
      cases hc : edit_profile_doc cfg ptype nm u with
      | error e => rw [hc, except_bind_error] at h; exact Except.noConfusion h
      | ok cfg' =>
          rw [hc, except_bind_ok] at h
          exact adv_save_config_inv _ _ _ _ _ h

theorem adv_delete_profile_inv (st : AdvState) (ptype nm : String)
    (scope : String) (r : Option Dict) (st' : AdvState)
    (h : adv_delete_profile st ptype nm scope r = Except.ok st') :
    advCtxInv st' := by
  unfold adv_delete_profile at h
  cases hg : adv_get_config st scope with
  | error e => rw [hg, except_bind_error] at h; exact Except.noConfusion h
  | ok cfg =>
      rw [hg, except_bind_ok] at h
      cases hc : delete_profile_doc cfg ptype nm with
      | error e => rw [hc, except_bind_error] at h; exact Except.noConfusion h
      | ok cfg' =>
          rw [hc, except_bind_ok] at h
          exact adv_save_config_inv _ _ _ _ _ h

theorem adv_set_default_profile_inv (st : AdvState) (ptype nm : String)
    (scope : String) (r : Option Dict) (st' : AdvState)
    (h : adv_set_default_profile st ptype nm scope r = Except.ok st') :
    advCtxInv st' := by
  unfold adv_set_default_profile at h
  cases hg : adv_get_config st scope with
  | error e => rw [hg, except_bind_error] at h; exact Except.noConfusion h
  | ok cfg =>
      rw [hg, except_bind_ok] at h
      cases hc : set_default_profile_doc cfg ptype nm with
      | error e => rw [hc, except_bind_error] at h; exact Except.noConfusion h
      | ok cfg' =>
          rw [hc, except_bind_ok] at h
          exact adv_save_config_inv _ _ _ _ _ h

theorem adv_set_setting_inv (st : AdvState) (nm : String) (v : JValue)
    (scope : String) (r : Option Dict) (st' : AdvState)
    (h : adv_set_setting st nm v scope r = Except.ok st') : advCtxInv st' := by
  unfold adv_set_setting at h
  cases hg : adv_get_config st scope with
  | error e => rw [hg, except_bind_error] at h; exact Except.noConfusion h
  | ok cfg =>
      rw [hg, except_bind_ok] at h
      cases hc : set_setting_doc cfg nm v with
      | error e => rw [hc, except_bind_error] at h; exact Except.noConfusion h
      | ok cfg' =>
          rw [hc, except_bind_ok] at h
          exact adv_save_config_inv _ _ _ _ _ h

theorem cmStep_instanceId_isSome (s : CMState) (op : CMOp) :
    ((cmStep s op).instanceId).isSome := by
  cases op <;> cases h : s.instanceId <;>
    simp [cmStep, cmNew, cmInitialize, h]

theorem cmStep_settings (s : CMState) (op : CMOp) :
    (cmStep s op).settingsSet = (s.settingsSet || op == CMOp.setup) := by
  cases op <;> cases h : s.instanceId <;>
    simp [cmStep, cmNew, cmInitialize, h]

theorem cmStep_instance_stable (s : CMState) (op : CMOp) (i : Nat)
    (h : s.instanceId = some i) : (cmStep s op).instanceId = some i := by
  cases op <;> simp [cmStep, cmNew, cmInitialize, h]

theorem cmFold_settings (ops : List CMOp) :
    ∀ s : CMState, (ops.foldl cmStep s).settingsSet
      = (s.settingsSet || ops.contains CMOp.setup) := by
  induction ops with
  | nil => intro s; simp
  | cons op rest ih =>
      intro s
      simp only [List.foldl_cons, ih, cmStep_settings, List.contains_cons]
      cases op <;>
        simp [Bool.or_assoc, show (CMOp.construct == CMOp.setup) = false by decide,
              show (CMOp.setup == CMOp.construct) = false by decide]

theorem cmFold_instance_isSome (ops : List CMOp) :
    ∀ s : CMState, ops ≠ [] → ((ops.foldl cmStep s).instanceId).isSome := by
  induction ops with
  | nil => intro s h; exact absurd rfl h
  | cons op rest ih =>
      intro s _
      cases hr : rest with
      | nil => simpa [hr] using cmStep_instanceId_isSome s op
      | cons o r => exact hr ▸ ih (cmStep s op) (by simp [hr])

theorem cmFold_instance_stable (ops : List CMOp) :
    ∀ (s : CMState) (i : Nat), s.instanceId = some i →
      (ops.foldl cmStep s).instanceId = some i := by
  induction ops with
  | nil => intro s i h; exact h
  | cons op rest ih =>
      intro s i h
      exact ih _ _ (cmStep_instance_stable s op i h)

theorem continuationGo_spec (m : Nat) (next : Nat → String) (r0 : String) :
    ∀ remaining count, count + remaining = m →
      count ≤ (continuationGo next remaining count (respSeq next r0 count)).1 ∧
      (continuationGo next remaining count (respSeq next r0 count)).1 ≤ m ∧
      ((continuationGo next remaining count (respSeq next r0 count)).2 = true →
        detectComplete (respSeq next r0
          ((continuationGo next remaining count (respSeq next r0 count)).1 - 1)) = true) ∧
      ((continuationGo next remaining count (respSeq next r0 count)).2 = false →
        (continuationGo next remaining count (respSeq next r0 count)).1 = m) := by
  intro remaining
  induction remaining with
  | zero =>
      intro count hm
      refine ⟨Nat.le_refl _, by simpa [continuationGo] using Nat.le_of_eq (by omega), ?_, ?_⟩
      · intro hcontra
        simp [continuationGo] at hcontra
      · intro _
        simpa [continuationGo] using by omega
  | succ r ih =>
      intro count hm
      by_cases hd : detectComplete (respSeq next r0 count)
      · refine ⟨?_, ?_, ?_, ?_⟩ <;> simp [continuationGo, hd]
        omega
      · have hnext : next (count + 1) = respSeq next r0 (count + 1) := by
          simp [respSeq]
        have hstep : continuationGo next (r + 1) count (respSeq next r0 count)
            = continuationGo next r (count + 1) (respSeq next r0 (count + 1)) := by
          simp [continuationGo, hd, hnext]
        rw [hstep]
        have := ih (count + 1) (by omega)
        exact ⟨by omega, this.2.1, this.2.2.1, this.2.2.2⟩

theorem jlookup_jerase (d : Dict) (k k' : String) :
    jlookup (jerase d k) k' = if k = k' then none else jlookup d k' := by
  induction d with
  | nil => simp [jerase, jlookup]
  | cons p rest ih =>
      obtain ⟨pk, pv⟩ := p
      simp only [jerase, List.filter_cons] at ih ⊢
      by_cases h1 : pk = k
      · subst h1
        simp only [beq_self_eq_true, Bool.not_true, Bool.false_eq_true, if_false]
        by_cases h2 : pk = k'
        · simpa [h2] using ih
        · rw [ih, if_neg h2, if_neg h2]
          simp [jlookup, h2]
      · have hb : (!(pk == k)) = true := by simp [h1]
        simp only [hb, if_true]
        by_cases h2 : pk = k'
        · subst h2
          have h3 : ¬(k = pk) := fun he => h1 he.symm
          simp [jlookup, h3]
        · simp only [jlookup, if_neg h2]
          exact ih

theorem applyCmdCfg_preserves (cmdCfg : Dict) :
    ∀ (cli : Dict) (k : String) (v : JValue),
      jlookup cli k = some v → v ≠ JValue.null →
      jlookup (applyCmdCfg cli cmdCfg) k = some v := by
  induction cmdCfg with
  | nil => intro cli k v h _; exact h
  | cons p rest ih =>
      intro cli k v h hv
      obtain ⟨pk, pv⟩ := p
      have hfold : applyCmdCfg cli ((pk, pv) :: rest)
          = applyCmdCfg (match jlookup cli pk with
                         | none => jset cli pk pv
                         | some JValue.null => jset cli pk pv
                         | some _ => cli) rest := by
        simp only [applyCmdCfg, List.foldl_cons]
      rw [hfold]
      by_cases hpk : pk = k
      · subst hpk
        rw [h]
        cases v with
        | null => exact absurd rfl hv
        | bool b => exact ih cli pk _ h hv
        | num n => exact ih cli pk _ h hv
        | str s => exact ih cli pk _ h hv
        | arr xs => exact ih cli pk _ h hv
        | obj d => exact ih cli pk _ h hv
      · cases hl : jlookup cli pk with
        | none =>
            refine ih _ k v ?_ hv
            rw [jlookup_jset, if_neg hpk]
            exact h
        | some w =>
            cases w <;>
              refine ih _ k v ?_ hv <;>
              first
              | (rw [jlookup_jset, if_neg hpk]; exact h)
              | exact h

theorem advFlags_no_file (cli : Dict)
    (h1 : jlookup cli "sys.argv" = none)
    (h2 : jlookup cli "file_path" = none ∨ jlookup cli "file_path" = some JValue.null) :
    advFlags cli = (scopeIsGlobal cli, false, false) := by
  have hargv : advSysArgv cli = [] := by simp [advSysArgv, h1]
  unfold advFlags
  rw [hargv]
  rcases h2 with h2 | h2 <;> simp [h2, pyTruthy, listSubstr]

theorem advFlags_with_file (cli : Dict) (v : JValue)
    (h1 : jlookup cli "sys.argv" = none)
    (h2 : jlookup cli "file_path" = some v) (h3 : pyTruthy v = true) :
    advFlags cli = (scopeIsGlobal cli, true, true) := by
  have hargv : advSysArgv cli = [] := by simp [advSysArgv, h1]
  unfold advFlags
  rw [hargv]
  simp [h2, h3, listSubstr]

/-- Away from the `commands` key the two DEFAULT_CONFIG documents agree. -/
theorem default_config_agree :
    ∀ k, k ≠ "commands" →
      jlookup DEFAULT_CONFIG_RT k = jlookup DEFAULT_CONFIG_ADV k := by
  intro k hk
  simp only [DEFAULT_CONFIG_RT, DEFAULT_CONFIG_ADV, jlookup]
  split_ifs with h1 h2 h3 h4 <;> first | rfl | exact absurd h4.symm hk

theorem jset_tags_agree (A B cli : Dict) (tag : JValue)
    (h : ∀ k, k ≠ "commands" → jlookup A k = jlookup B k) :
    ∀ k, k ≠ "commands" →
      jlookup (jset (jset A "current_scope" tag) "cli_args" (JValue.obj cli)) k
        = jlookup (jset (jset B "current_scope" tag) "cli_args" (JValue.obj cli)) k := by
  intro k hk
  rw [jlookup_jset, jlookup_jset, jlookup_jset, jlookup_jset]
  by_cases h1 : "cli_args" = k
  · simp [h1]
  · by_cases h2 : "current_scope" = k <;> simp [h1, h2, h k hk]

/-- With no disk re-read the rebuild never changes `named_config`. -/
theorem adv_build_snd_none (g l : Dict) (n : Option Dict) (cli : Dict) :
    (adv_build_runtime_context g l n cli none).2 = n := by
  unfold adv_build_runtime_context
  simp

/-- The document stored for a scope in an RTSettings state. -/
def rtScopeDoc (st : RTState) (scope : String) : Option Dict :=
  if scope = "global" then some st.global_config
  else if scope = "local" then some st.local_config
  else if scope = "file" then st.named_config
  else none

/-- The documents of the scopes other than `scope` are untouched. -/
def rtOthersUnchanged (st st' : RTState) (scope : String) : Prop :=
  (scope ≠ "global" → st'.global_config = st.global_config)
  ∧ (scope ≠ "local" → st'.local_config = st.local_config)
  ∧ (scope ≠ "file" → st'.named_config = st.named_config)

/-- The document stored for a scope in an AdvancedRTSettings state. -/
def advScopeDoc (st : AdvState) (scope : String) : Option Dict :=
  if scope = "global" then some st.global_config
  else if scope = "local" then some st.local_config
  else if scope = "file" then st.named_config
  else none

/-- The documents of the scopes other than `scope` are untouched. -/
def advOthersUnchanged (st st' : AdvState) (scope : String) : Prop :=
  (scope ≠ "global" → st'.global_config = st.global_config)
  ∧ (scope ≠ "local" → st'.local_config = st.local_config)
  ∧ (scope ≠ "file" → st'.named_config = st.named_config)

theorem rt_save_result (st : RTState) (nd : Dict) (scope : String)
    (hok : rtScopeOk st scope = true) :
    ∃ st', rt_save_config st nd scope = Except.ok st'
      ∧ rtScopeDoc st' scope = some nd
      ∧ rtOthersUnchanged st st' scope := by
  refine ⟨_, by unfold rt_save_config; rw [if_pos hok], ?_, ?_⟩
  · unfold rtScopeOk at hok
    unfold rtScopeDoc
    by_cases h1 : scope = "global"
    · simp [h1]
    · by_cases h2 : scope = "local"
      · simp [h1, h2]
      · by_cases h3 : scope = "file"
        · simp [h1, h2, h3]
        · simp [h1, h2, h3] at hok
  · refine ⟨?_, ?_, ?_⟩ <;> intro hne <;> simp [hne]

theorem adv_save_result (st : AdvState) (nd : Dict) (scope : String)
    (hok : advScopeOk st scope = true) :
    ∃ st', adv_save_config st nd scope none = Except.ok st'
      ∧ advScopeDoc st' scope = some nd
      ∧ advOthersUnchanged st st' scope := by
  refine ⟨_, by unfold adv_save_config; rw [if_pos hok], ?_, ?_⟩
  · unfold advScopeOk at hok
    unfold advScopeDoc
    rw [adv_build_snd_none]
    by_cases h1 : scope = "global"
    · simp [h1]
    · by_cases h2 : scope = "local"
      · simp [h1, h2]
      · by_cases h3 : scope = "file"
        · simp [h1, h2, h3]
        · simp [h1, h2, h3] at hok
  · refine ⟨?_, ?_, ?_⟩ <;> intro hne <;> simp [hne, adv_build_snd_none]

theorem create_profile_doc_dup (cfg P sec profile : Dict) (ptype nm : String)
    (v : JValue)
    (h1 : jlookup cfg "profiles" = some (JValue.obj P))
    (h2 : jlookup profile "name" = some (JValue.str nm))
    (h3 : jlookup P ptype = some (JValue.obj sec))
    (h4 : jlookup sec nm = some v) :
    create_profile_doc cfg ptype profile
      = Except.error ("Profile already exists: " ++ nm) := by
  unfold create_profile_doc
  simp [pyDictGet, h1, except_bind_ok, pyContains, asObj, h2, h3, h4]

theorem create_profile_doc_fresh (cfg P sec profile : Dict) (ptype nm : String)
    (h1 : jlookup cfg "profiles" = some (JValue.obj P))
    (h2 : jlookup profile "name" = some (JValue.str nm))
    (h3 : jlookup P ptype = some (JValue.obj sec))
    (h4 : jlookup sec nm = none) :
    create_profile_doc cfg ptype profile
      = Except.ok (jset cfg "profiles"
          (JValue.obj (jset P ptype (JValue.obj (jset sec nm (JValue.obj profile)))))) := by
  unfold create_profile_doc
  simp [pyDictGet, h1, except_bind_ok, pyContains, asObj, h2, h3, h4]

theorem create_profile_doc_newsec (cfg P profile : Dict) (ptype nm : String)
    (h1 : jlookup cfg "profiles" = some (JValue.obj P))
    (h2 : jlookup profile "name" = some (JValue.str nm))
    (h3 : jlookup P ptype = none) :
    create_profile_doc cfg ptype profile
      = Except.ok (jset cfg "profiles"
          (JValue.obj (jset P ptype (JValue.obj [(nm, JValue.obj profile)])))) := by
  unfold create_profile_doc
  simp only [pyDictGet, h1, except_bind_ok, pyContains, asObj, h2, h3,
    Option.isSome_none, Bool.false_eq_true, if_false]
  rw [show jlookup (jset P ptype (JValue.obj [])) ptype = some (JValue.obj []) by
      rw [jlookup_jset]; simp]
  simp [except_bind_ok, jlookup, jset_jset_same, jset]

theorem delete_profile_doc_eq (cfg P sec defaults : Dict) (ptype nm : String)
    (h1 : jlookup cfg "profiles" = some (JValue.obj P))
    (h3 : jlookup P ptype = some (JValue.obj sec))
    (h4 : (jlookup sec nm).isSome = true)
    (h5 : jlookup cfg "defaults" = some (JValue.obj defaults)) :
    delete_profile_doc cfg ptype nm
      = Except.ok
          (if isDefaultHit defaults ptype nm then
            jset (jset cfg "profiles" (JValue.obj (jset P ptype (JValue.obj (jerase sec nm)))))
              "defaults" (JValue.obj (jset defaults ptype JValue.null))
          else
            jset cfg "profiles" (JValue.obj (jset P ptype (JValue.obj (jerase sec nm))))) := by
  unfold delete_profile_doc
  have h5' : jlookup (jset cfg "profiles"
      (JValue.obj (jset P ptype (JValue.obj (jerase sec nm))))) "defaults"
      = some (JValue.obj defaults) := by
    rw [jlookup_jset]
    simp [h5]
  simp [pyDictGet, h1, except_bind_ok, pyContains, asObj, h3, h4, pyIndex, h5']
  split <;> rfl

/-- C7: the conversation-continuation loop in process_with_llm terminates for
every sequence of model responses: it executes at most `max_continuations`
iterations, it exits earlier only because the string-matching completion
test `detectComplete` (the listed lowercase markers in the joined last five
lines, the literal CONVERSION COMPLETE anywhere, or `complete` in those
lines together with one of conversion/all/is/now/fully) accepted the
response examined at the final iteration, and with no accepted response it
runs exactly `max_continuations` iterations. -/
theorem claim7_continuation_loop_terminates :
    ∀ (m : Nat) (next : Nat → String) (r0 : String),
      (continuationLoop m next r0).1 ≤ m
      ∧ ((continuationLoop m next r0).1 < m → (continuationLoop m next r0).2 = true)
      ∧ ((continuationLoop m next r0).2 = true →
          detectComplete (respSeq next r0 ((continuationLoop m next r0).1 - 1)) = true)
      ∧ ((∀ c : Nat, detectComplete (respSeq next r0 c) = false) →
          continuationLoop m next r0 = (m, false)) := by
  intro m next r0
  have h0 : respSeq next r0 0 = r0 := by simp [respSeq]
  have hs := continuationGo_spec m next r0 m 0 (by omega)
  rw [h0] at hs
  have hL : continuationLoop m next r0 = continuationGo next m 0 r0 := rfl
  rw [hL]
  refine ⟨hs.2.1, ?_, hs.2.2.1, ?_⟩
  · intro hlt
    cases hb : (continuationGo next m 0 r0).2 with
    | true => rfl
    | false => exact absurd (hs.2.2.2 hb) (by omega)
  · intro hall
    have hb : (continuationGo next m 0 r0).2 = false := by
      cases hb2 : (continuationGo next m 0 r0).2 with
      | false => rfl
      | true =>
          have := hs.2.2.1 hb2
          rw [hall] at this
          exact absurd this (by simp)
    have h1 := hs.2.2.2 hb
    have hpair : continuationGo next m 0 r0
        = ((continuationGo next m 0 r0).1, (continuationGo next m 0 r0).2) := rfl
    rw [hpair, h1, hb]

/-- Witness for C7 at a concrete run: with the explicit completion marker in
the first response the loop stops after one iteration. -/
theorem claim7_continuation_loop_terminates_witness :
    (continuationLoop 3 (fun _ => "") "CONVERSION COMPLETE").2 = true :=
  (claim7_continuation_loop_terminates 3 (fun _ => "") "CONVERSION COMPLETE").2.1
    (by decide)

/-- C6 counterexample: a direct construction of ContextManager (which the
fallback path of initialize_context performs) sets the class-level
`_instance` without `initialize` ever being called, so `get_instance`
succeeds on a manager that has never been initialized, refuting the claimed
"raises RuntimeError if and only if never initialized". -/
theorem claim6_counterexample :
    cmGetInstance (cmRun [CMOp.construct]) = Except.ok 0
    ∧ CMOp.setup ∉ [CMOp.construct] :=
  ⟨rfl, by decide⟩

/-- C6 (amended): ContextManager is a singleton — repeated constructions
return the same instance and an existing instance is never replaced;
get_instance succeeds whenever initialize has been called at least once; it
raises RuntimeError exactly when no instance was ever created, whether by
initialize or by direct construction; and the settings property raises
RuntimeError exactly when initialize never ran, i.e. the settings slot was
never assigned. -/
theorem claim6_singleton_amended :
    (∀ s : CMState, (cmNew ((cmNew s).2)).1 = (cmNew s).1)
    ∧ (∀ (s : CMState) (i : Nat), s.instanceId = some i → cmNew s = (i, s))
    ∧ (∀ ops : List CMOp, CMOp.setup ∈ ops →
        ∃ i, cmGetInstance (cmRun ops) = Except.ok i)
    ∧ (∀ ops : List CMOp,
        (∃ e, cmGetInstance (cmRun ops) = Except.error e) ↔ ops = [])
    ∧ (∀ ops : List CMOp,
        (∃ e, cmSettings (cmRun ops) = Except.error e) ↔ CMOp.setup ∉ ops) := by
  refine ⟨?_, ?_, ?_, ?_, ?_⟩
  · intro s
    cases h : s.instanceId <;> simp [cmNew, h]
  · intro s i h
    simp [cmNew, h]
  · intro ops hmem
    have hne : ops ≠ [] := by
      rintro rfl
      simp at hmem
    have hs := cmFold_instance_isSome ops cmInit hne
    obtain ⟨i, hi⟩ := Option.isSome_iff_exists.mp hs
    refine ⟨i, ?_⟩
    unfold cmGetInstance cmRun
    rw [hi]
  · intro ops
    constructor
    · rintro ⟨e, he⟩
      by_contra hne
      have hs := cmFold_instance_isSome ops cmInit hne
      obtain ⟨i, hi⟩ := Option.isSome_iff_exists.mp hs
      unfold cmGetInstance cmRun at he
      rw [hi] at he
      exact Except.noConfusion he
    · rintro rfl
      exact ⟨_, rfl⟩
  · intro ops
    have hset : (cmRun ops).settingsSet = ops.contains CMOp.setup := by
      unfold cmRun
      rw [cmFold_settings ops cmInit]
      simp [cmInit]
    constructor
    · rintro ⟨e, he⟩ hmem
      unfold cmSettings at he
      have hc : ops.contains CMOp.setup = true := by
        unfold List.contains
        simp [hmem]
      rw [hset, hc] at he
      simp at he
    · intro hmem
      have hc : ops.contains CMOp.setup = false := by
        unfold List.contains
        simp [hmem]
      refine ⟨"Runtime settings not initialized.", ?_⟩
      unfold cmSettings
      rw [hset, hc]
      rfl

/-- Witness for C6 (amended): after one initialize call, get_instance
returns the singleton. -/
theorem claim6_singleton_amended_witness :
    ∃ i, cmGetInstance (cmRun [CMOp.setup]) = Except.ok i :=
  claim6_singleton_amended.2.2.1 [CMOp.setup] (by decide)

/-- C5: configuration loading recovers from exactly one failure mode, a JSON
decode error — an unparsable global or local file keeps the built-in default
for that scope, an unparsable named file leaves the named configuration
`None`, construction still completes whenever no other I/O failure occurs,
and any other I/O failure is not recovered and propagates. -/
theorem claim5_json_decode_recovery :
    (∀ (cli : Dict) (lfr nfr : FileResult) (st : RTState),
        initRT cli FileResult.badJson lfr nfr = Except.ok st →
        st.global_config = DEFAULT_CONFIG_RT)
    ∧ (∀ (cli : Dict) (gfr nfr : FileResult) (st : RTState),
        initRT cli gfr FileResult.badJson nfr = Except.ok st →
        st.local_config = DEFAULT_CONFIG_RT)
    ∧ (∀ (cli : Dict) (gfr lfr : FileResult) (st : RTState),
        initRT cli gfr lfr FileResult.badJson = Except.ok st →
        st.named_config = none)
    ∧ (∀ (cli : Dict) (gfr lfr nfr : FileResult),
        gfr ≠ FileResult.ioFail → lfr ≠ FileResult.ioFail →
        nfr ≠ FileResult.ioFail →
        ∃ st, initRT cli gfr lfr nfr = Except.ok st)
    ∧ (∀ (cli : Dict) (lfr nfr : FileResult),
        initRT cli FileResult.ioFail lfr nfr = Except.error "IOError") := by
  refine ⟨?_, ?_, ?_, ?_, ?_⟩
  · intro cli lfr nfr st h
    unfold initRT at h
    rw [show load_scope_config DEFAULT_CONFIG_RT FileResult.badJson
        = Except.ok DEFAULT_CONFIG_RT from rfl, except_bind_ok] at h
    cases hl : load_scope_config DEFAULT_CONFIG_RT lfr with
    | error e => rw [hl, except_bind_error] at h; exact Except.noConfusion h
    | ok l =>
        rw [hl, except_bind_ok] at h
        cases hn : load_named_config cli nfr with
        | error e => rw [hn, except_bind_error] at h; exact Except.noConfusion h
        | ok n =>
            rw [hn, except_bind_ok] at h
            cases h
            rfl
  · intro cli gfr nfr st h
    unfold initRT at h
    cases hg : load_scope_config DEFAULT_CONFIG_RT gfr with
    | error e => rw [hg, except_bind_error] at h; exact Except.noConfusion h
    | ok g =>
        rw [hg, except_bind_ok,
          show load_scope_config DEFAULT_CONFIG_RT FileResult.badJson
            = Except.ok DEFAULT_CONFIG_RT from rfl, except_bind_ok] at h
        cases hn : load_named_config cli nfr with
        | error e => rw [hn, except_bind_error] at h; exact Except.noConfusion h
        | ok n =>
            rw [hn, except_bind_ok] at h
            cases h
            rfl
  · intro cli gfr lfr st h
    unfold initRT at h
    cases hg : load_scope_config DEFAULT_CONFIG_RT gfr with
    | error e => rw [hg, except_bind_error] at h; exact Except.noConfusion h
    | ok g =>
        rw [hg, except_bind_ok] at h
        cases hl : load_scope_config DEFAULT_CONFIG_RT lfr with
        | error e => rw [hl, except_bind_error] at h; exact Except.noConfusion h
        | ok l =>
            rw [hl, except_bind_ok] at h
            have hn : load_named_config cli FileResult.badJson = Except.ok none := by
              unfold load_named_config
              cases hf : jlookup cli "file_path" with
              | none => rfl
              | some v =>
                  by_cases ht : pyTruthy v = true <;> simp [ht]
            rw [hn, except_bind_ok] at h
            cases h
            rfl
  · intro cli gfr lfr nfr hg hl hn
    obtain ⟨g, hgE⟩ : ∃ g, load_scope_config DEFAULT_CONFIG_RT gfr = Except.ok g := by
      cases gfr with
      | ioFail => exact absurd rfl hg
      | absent => exact ⟨_, rfl⟩
      | badJson => exact ⟨_, rfl⟩
      | good d => exact ⟨_, rfl⟩
    obtain ⟨l, hlE⟩ : ∃ l, load_scope_config DEFAULT_CONFIG_RT lfr = Except.ok l := by
      cases lfr with
      | ioFail => exact absurd rfl hl
      | absent => exact ⟨_, rfl⟩
      | badJson => exact ⟨_, rfl⟩
      | good d => exact ⟨_, rfl⟩
    obtain ⟨n, hnE⟩ : ∃ n, load_named_config cli nfr = Except.ok n := by
      unfold load_named_config
      cases hf : jlookup cli "file_path" with
      | none => exact ⟨_, rfl⟩
      | some v =>
          by_cases ht : pyTruthy v = true
          · cases nfr with
            | ioFail => exact absurd rfl hn
            | absent => exact ⟨none, by simp [ht]⟩
            | badJson => exact ⟨none, by simp [ht]⟩
            | good d => exact ⟨some d, by simp [ht]⟩
          · exact ⟨none, by simp [ht]⟩
    refine ⟨{ global_config := g, local_config := l, named_config := n,
              named_config_path :=
                match jlookup cli "file_path" with
                | some v => if pyTruthy v then some v else none
                | none => none,
              cli_args := cli,
              context := build_runtime_context g l n cli }, ?_⟩
    unfold initRT
    rw [hgE, except_bind_ok, hlE, except_bind_ok, hnE, except_bind_ok]
  · intro cli lfr nfr
    rfl

/-- Witness for C5: an unparsable global file leaves the built-in defaults
in place and construction completes. -/
theorem claim5_json_decode_recovery_witness :
    ({ global_config := DEFAULT_CONFIG_RT, local_config := DEFAULT_CONFIG_RT,
       named_config := none, named_config_path := none, cli_args := [],
       context := build_runtime_context DEFAULT_CONFIG_RT DEFAULT_CONFIG_RT
         none [] } : RTState).global_config = DEFAULT_CONFIG_RT :=
  claim5_json_decode_recovery.1 [] FileResult.absent FileResult.absent _ rfl

/-- C3: get_param_value resolves a parameter from exactly these sources in
order — the CLI argument when one is present, otherwise the
command-specific configuration entry for the current command path, otherwise
the value in the general settings section of the effective configuration,
otherwise the caller-supplied default. -/
theorem claim3_param_resolution_order :
    ∀ (st : AdvState) (nm : String) (dflt : JValue),
      (∀ v, jlookup st.cli_args nm = some v →
        adv_get_param_value st nm dflt = Except.ok v)
      ∧ (∀ c v, jlookup st.cli_args nm = none →
          adv_get_command_config st none = Except.ok (JValue.obj c) →
          jlookup c nm = some v →
          adv_get_param_value st nm dflt = Except.ok v)
      ∧ (∀ c stg v, jlookup st.cli_args nm = none →
          adv_get_command_config st none = Except.ok (JValue.obj c) →
          jlookup c nm = none →
          jlookup st.context "settings" = some (JValue.obj stg) →
          jlookup stg nm = some v →
          adv_get_param_value st nm dflt = Except.ok v)
      ∧ (∀ c stg, jlookup st.cli_args nm = none →
          adv_get_command_config st none = Except.ok (JValue.obj c) →
          jlookup c nm = none →
          jlookup st.context "settings" = some (JValue.obj stg) →
          jlookup stg nm = none →
          adv_get_param_value st nm dflt = Except.ok dflt) := by
  intro st nm dflt
  refine ⟨?_, ?_, ?_, ?_⟩
  · intro v h
    unfold adv_get_param_value
    rw [h]
  · intro c v h1 h2 h3
    unfold adv_get_param_value
    rw [h1]
    simp [h2, except_bind_ok, pyContains, h3, pyIndex]
  · intro c stg v h1 h2 h3 h4 h5
    unfold adv_get_param_value
    rw [h1]
    simp [h2, except_bind_ok, pyContains, h3, pyIndex, pyDictGet, h4, h5]
  · intro c stg h1 h2 h3 h4 h5
    unfold adv_get_param_value
    rw [h1]
    simp [h2, except_bind_ok, pyContains, h3, pyIndex, pyDictGet, h4, h5]

/-- Witness for C3 at a concrete state: a CLI-supplied value shadows a
conflicting general setting, and a command-specific entry is used when the
CLI does not supply the parameter. -/
theorem claim3_param_resolution_order_witness :
    adv_get_param_value
        { global_config := [], local_config := [], named_config := none,
          named_config_path := none,
          cli_args := [("temperature", JValue.num 1)],
          commandPath := some "generate.prompt",
          context := [("settings", JValue.obj [("temperature", JValue.num 2)]),
                      ("commands", JValue.obj [("generate.prompt",
                        JValue.obj [("stream", JValue.bool true)])])] }
        "temperature" JValue.null = Except.ok (JValue.num 1)
    ∧ adv_get_param_value
        { global_config := [], local_config := [], named_config := none,
          named_config_path := none,
          cli_args := [("temperature", JValue.num 1)],
          commandPath := some "generate.prompt",
          context := [("settings", JValue.obj [("temperature", JValue.num 2)]),
                      ("commands", JValue.obj [("generate.prompt",
                        JValue.obj [("stream", JValue.bool true)])])] }
        "stream" JValue.null = Except.ok (JValue.bool true) := by
  constructor
  · exact (claim3_param_resolution_order _ "temperature" JValue.null).1
      (JValue.num 1) rfl
  · exact (claim3_param_resolution_order _ "stream" JValue.null).2.1
      [("stream", JValue.bool true)] (JValue.bool true) rfl rfl rfl

/-- C1: the effective configuration obeys the stated precedence invariant —
a CLI-supplied value always wins in parameter resolution (both in
get_param_value and against the command-specific values injected by
_apply_command_specific_config), and within the file scopes the per-key
behaviour of the recursive dictionary merge makes the more specific document
win: a later source overwrites scalar leaves and recurses into values that
are objects in both sources, so under the file option a scalar bound in the
named document wins over local and global, and a scalar bound in the local
document wins over global when the named document lacks the key. -/
theorem claim1_cli_and_scope_precedence :
    (∀ (st : AdvState) (nm : String) (dflt v : JValue),
        jlookup st.cli_args nm = some v →
        adv_get_param_value st nm dflt = Except.ok v)
    ∧ (∀ (cmdCfg cli : Dict) (k : String) (v : JValue),
        jlookup cli k = some v → v ≠ JValue.null →
        jlookup (applyCmdCfg cli cmdCfg) k = some v)
    ∧ (∀ (d1 d2 : Dict) (k : String), (d2.map Prod.fst).Nodup →
        jlookup (deep_merge d1 d2) k = mergedAt (jlookup d1 k) (jlookup d2 k))
    ∧ (∀ (g l nc cli : Dict) (k : String) (v : JValue),
        (nc.map Prod.fst).Nodup →
        isNotNone (jlookup cli "file_path") = true →
        nc ≠ [] →
        k ≠ "current_scope" → k ≠ "cli_args" →
        jlookup nc k = some v → (∀ o, v ≠ JValue.obj o) →
        jlookup (build_runtime_context g l (some nc) cli) k = some v)
    ∧ (∀ (g l nc cli : Dict) (k : String) (v : JValue),
        (l.map Prod.fst).Nodup →
        (nc.map Prod.fst).Nodup →
        isNotNone (jlookup cli "file_path") = true →
        nc ≠ [] →
        k ≠ "current_scope" → k ≠ "cli_args" →
        jlookup nc k = none →
        jlookup l k = some v → (∀ o, v ≠ JValue.obj o) →
        jlookup (build_runtime_context g l (some nc) cli) k = some v) := by
  refine ⟨?_, ?_, ?_, ?_, ?_⟩
  · intro st nm dflt v h
    unfold adv_get_param_value
    rw [h]
  · intro cmdCfg cli k v h hv
    exact applyCmdCfg_preserves cmdCfg cli k v h hv
  · intro d1 d2 k hnd
    exact jlookup_deep_merge d2 d1 k hnd
  · intro g l nc cli k v hnd hfile hne hk1 hk2 hv hscal
    unfold build_runtime_context
    rw [hfile]
    have hnt : namedTruthy (some nc) = true := by
      cases nc with
      | nil => exact absurd rfl hne
      | cons p rest => rfl
    simp only [if_true, hnt]
    rw [jlookup_jset, if_neg (fun h => hk2 h.symm),
        jlookup_jset, if_neg (fun h => hk1 h.symm)]
    rw [show namedDict (some nc) = nc from rfl]
    rw [jlookup_deep_merge nc _ k hnd, hv, mergedAt_scalar _ v hscal]
  · intro g l nc cli k v hndl hndn hfile hne hk1 hk2 hvn hvl hscal
    unfold build_runtime_context
    rw [hfile]
    have hnt : namedTruthy (some nc) = true := by
      cases nc with
      | nil => exact absurd rfl hne
      | cons p rest => rfl
    simp only [if_true, hnt]
    rw [jlookup_jset, if_neg (fun h => hk2 h.symm),
        jlookup_jset, if_neg (fun h => hk1 h.symm)]
    rw [show namedDict (some nc) = nc from rfl]
    rw [jlookup_deep_merge nc _ k hndn, hvn, mergedAt_none,
        jlookup_deep_merge l _ k hndl, hvl, mergedAt_scalar _ v hscal]

/-- Witness for C1 at concrete inputs: the CLI wins over a conflicting
setting, and a scalar in the named document wins over local and global in
the merged context. -/
theorem claim1_cli_and_scope_precedence_witness :
    adv_get_param_value
        { global_config := [], local_config := [], named_config := none,
          named_config_path := none,
          cli_args := [("log_level", JValue.str "debug")],
          commandPath := none,
          context := [("settings", JValue.obj [("log_level", JValue.str "info")])] }
        "log_level" JValue.null = Except.ok (JValue.str "debug")
    ∧ jlookup (build_runtime_context
        [("color_theme", JValue.str "dark")]
        [("color_theme", JValue.str "light")]
        (some [("color_theme", JValue.str "solarized")])
        [("file_path", JValue.str "cfg.json")]) "color_theme"
      = some (JValue.str "solarized") := by
  constructor
  · exact claim1_cli_and_scope_precedence.1 _ "log_level" JValue.null
      (JValue.str "debug") rfl
  · exact claim1_cli_and_scope_precedence.2.2.2.1
      [("color_theme", JValue.str "dark")]
      [("color_theme", JValue.str "light")]
      [("color_theme", JValue.str "solarized")]
      [("file_path", JValue.str "cfg.json")]
      "color_theme" (JValue.str "solarized")
      (by simp) rfl (by simp) (by decide) (by decide) rfl
      (fun o h => JValue.noConfusion h)

/-- C10: when a named configuration file is requested via the file option
but no named document could be loaded (missing file or unparsable
contents), building the runtime context silently falls back to the standard
precedence — defaults, then global, then local — and tags the context with
current_scope `local` rather than `file` or an error; the same holds for the
advanced builder when its disk re-read also fails. -/
theorem claim10_named_file_fallback :
    ∀ (g l cli : Dict),
      isNotNone (jlookup cli "file_path") = true →
      (build_runtime_context g l none cli
          = jset (jset (deep_merge (deep_merge DEFAULT_CONFIG_RT g) l)
              "current_scope" (JValue.str "local")) "cli_args" (JValue.obj cli))
      ∧ jlookup (build_runtime_context g l none cli) "current_scope"
          = some (JValue.str "local")
      ∧ (∀ (s : String), jlookup cli "file_path" = some (JValue.str s) → s ≠ "" →
          jlookup cli "sys.argv" = none →
          advContext g l none cli
            = jset (jset (deep_merge (deep_merge DEFAULT_CONFIG_ADV g) l)
                "current_scope" (JValue.str "local")) "cli_args" (JValue.obj cli)
          ∧ jlookup (advContext g l none cli) "current_scope"
              = some (JValue.str "local")) := by
  intro g l cli hfile
  have h1 : build_runtime_context g l none cli
      = jset (jset (deep_merge (deep_merge DEFAULT_CONFIG_RT g) l)
          "current_scope" (JValue.str "local")) "cli_args" (JValue.obj cli) := by
    unfold build_runtime_context
    rw [hfile]
    simp [namedTruthy]
  refine ⟨h1, ?_, ?_⟩
  · rw [h1, jlookup_jset, jlookup_jset]
    simp
  · intro s hfp hs hargv
    have hfl : advFlags cli = (scopeIsGlobal cli, true, true) :=
      advFlags_with_file cli (JValue.str s) hargv hfp (by simp [pyTruthy, hs])
    have h2 : advContext g l none cli
        = jset (jset (deep_merge (deep_merge DEFAULT_CONFIG_ADV g) l)
            "current_scope" (JValue.str "local")) "cli_args" (JValue.obj cli) := by
      unfold advContext adv_build_runtime_context
      rw [hfl]
      simp [advContextCore, namedTruthy]
    refine ⟨h2, ?_⟩
    rw [h2, jlookup_jset, jlookup_jset]
    simp

/-- Witness for C10: with a file requested and no named document loaded the
context is tagged `local`. -/
theorem claim10_named_file_fallback_witness :
    jlookup (build_runtime_context [] [] none
        [("file_path", JValue.str "missing.json")]) "current_scope"
      = some (JValue.str "local") :=
  (claim10_named_file_fallback [] [] [("file_path", JValue.str "missing.json")]
    rfl).2.1

/-- C2 counterexample: the effective context does not deep-merge the CLI
arguments as a final source.  With CLI arguments `{"x": 1}` and all files
absent, the context built at initialization has no key `x`, while the
claimed merge (defaults, global, local, then the CLI arguments, plus the
tags) binds `x`; hence the two disagree. -/
theorem claim2_counterexample :
    (initRT [("x", JValue.num 1)] FileResult.absent FileResult.absent
        FileResult.absent).map (fun st => jlookup st.context "x")
      = Except.ok none
    ∧ jlookup (jset (jset (deep_merge (deep_merge (deep_merge DEFAULT_CONFIG_RT
          DEFAULT_CONFIG_RT) DEFAULT_CONFIG_RT) [("x", JValue.num 1)])
          "current_scope" (JValue.str "local")) "cli_args"
          (JValue.obj [("x", JValue.num 1)])) "x" = some (JValue.num 1)
    ∧ (initRT [("x", JValue.num 1)] FileResult.absent FileResult.absent
          FileResult.absent).map (fun st => st.context)
        ≠ Except.ok (jset (jset (deep_merge (deep_merge (deep_merge
            DEFAULT_CONFIG_RT DEFAULT_CONFIG_RT) DEFAULT_CONFIG_RT)
            [("x", JValue.num 1)]) "current_scope" (JValue.str "local"))
            "cli_args" (JValue.obj [("x", JValue.num 1)])) := by
  have hD : jlookup DEFAULT_CONFIG_RT "x" = none := rfl
  have hnd : (DEFAULT_CONFIG_RT.map Prod.fst).Nodup := by decide
  have hm1 : jlookup (deep_merge DEFAULT_CONFIG_RT DEFAULT_CONFIG_RT) "x" = none := by
    rw [jlookup_deep_merge _ _ _ hnd, hD, mergedAt_none]
  have hm2 : jlookup (deep_merge (deep_merge DEFAULT_CONFIG_RT DEFAULT_CONFIG_RT)
      DEFAULT_CONFIG_RT) "x" = none := by
    rw [jlookup_deep_merge _ _ _ hnd, hD, mergedAt_none, hm1]
  have hctx : jlookup (build_runtime_context DEFAULT_CONFIG_RT DEFAULT_CONFIG_RT
      none [("x", JValue.num 1)]) "x" = none := by
    unfold build_runtime_context
    simp only [show isNotNone (jlookup [("x", JValue.num 1)] "file_path") = false
        from rfl,
      show scopeIsGlobal [("x", JValue.num 1)] = false from rfl,
      Bool.false_eq_true, if_false]
    rw [jlookup_jset, jlookup_jset]
    simp [hm2]
  have h1 : (initRT [("x", JValue.num 1)] FileResult.absent FileResult.absent
        FileResult.absent).map (fun st => jlookup st.context "x")
      = Except.ok (jlookup (build_runtime_context DEFAULT_CONFIG_RT
          DEFAULT_CONFIG_RT none [("x", JValue.num 1)]) "x") := rfl
  have hcli : (([("x", JValue.num 1)] : Dict).map Prod.fst).Nodup := by decide
  have h2 : jlookup (jset (jset (deep_merge (deep_merge (deep_merge
        DEFAULT_CONFIG_RT DEFAULT_CONFIG_RT) DEFAULT_CONFIG_RT)
        [("x", JValue.num 1)]) "current_scope" (JValue.str "local")) "cli_args"
        (JValue.obj [("x", JValue.num 1)])) "x" = some (JValue.num 1) := by
    rw [jlookup_jset, jlookup_jset]
    simp only [show ¬("cli_args" = "x") by decide, show ¬("current_scope" = "x")
        by decide, if_false]
    rw [jlookup_deep_merge _ _ _ hcli, hm2]
    rfl
  refine ⟨by rw [h1, hctx], h2, ?_⟩
  intro h
  have hcomp : ∀ (e : Except String RTState),
      (e.map (fun st => st.context)).map (fun c => jlookup c "x")
        = e.map (fun st => jlookup st.context "x") := by
    intro e; cases e <;> rfl
  have h3 := congrArg (Except.map (fun c => jlookup c "x")) h
  rw [hcomp, h1, hctx] at h3
  simp only [Except.map] at h3
  rw [h2] at h3
  exact Option.noConfusion (Except.ok.inj h3)

/-- C2 (amended): after initialization and after every mutating operation
(save_config, update_config, create_profile, edit_profile, delete_profile,
set_default_profile, set_setting — in both settings classes), the effective
context equals _build_runtime_context applied to the current documents and
CLI arguments: the deep-merge of the defaults, then the global document,
then the local document, and then the named document when a file is
requested and its document is loaded non-empty (only defaults and global
when the scope is global without a file), together with the current_scope
tag and the raw CLI argument dictionary stored under `cli_args`.  CLI
argument values are not merged per-key into the context, and for the
advanced class the rebuild's disk re-read is taken to return nothing.  The
context is therefore rebuilt on every mutation and never stale. -/
theorem claim2_context_rebuilt_amended :
    (∀ (cli : Dict) (gfr lfr nfr : FileResult) (st : RTState),
        initRT cli gfr lfr nfr = Except.ok st → rtCtxInv st)
    ∧ (∀ (st : RTState) (c : Dict) (scope : String) (st' : RTState),
        rt_save_config st c scope = Except.ok st' → rtCtxInv st')
    ∧ (∀ (st : RTState) (u : Dict) (scope : String) (st' : RTState),
        rt_update_config st u scope = Except.ok st' → rtCtxInv st')
    ∧ (∀ (st : RTState) (ptype : String) (profile : Dict) (scope : String)
        (st' : RTState),
        rt_create_profile st ptype profile scope = Except.ok st' → rtCtxInv st')
    ∧ (∀ (st : RTState) (ptype nm : String) (u : Dict) (scope : String)
        (st' : RTState),
        rt_edit_profile st ptype nm u scope = Except.ok st' → rtCtxInv st')
    ∧ (∀ (st : RTState) (ptype nm : String) (scope : String) (st' : RTState),
        rt_delete_profile st ptype nm scope = Except.ok st' → rtCtxInv st')
    ∧ (∀ (st : RTState) (ptype nm : String) (scope : String) (st' : RTState),
        rt_set_default_profile st ptype nm scope = Except.ok st' → rtCtxInv st')
    ∧ (∀ (st : RTState) (nm : String) (v : JValue) (scope : String)
        (st' : RTState),
        rt_set_setting st nm v scope = Except.ok st' → rtCtxInv st')
    ∧ (∀ (st : AdvState) (c : Dict) (scope : String) (r : Option Dict)
        (st' : AdvState),
        adv_save_config st c scope r = Except.ok st' → advCtxInv st')
    ∧ (∀ (st : AdvState) (u : Dict) (scope : String) (r : Option Dict)
        (st' : AdvState),
        adv_update_config st u scope r = Except.ok st' → advCtxInv st')
    ∧ (∀ (st : AdvState) (ptype : String) (profile : Dict) (scope : String)
        (r : Option Dict) (st' : AdvState),
        adv_create_profile st ptype profile scope r = Except.ok st' → advCtxInv st')
    ∧ (∀ (st : AdvState) (ptype nm : String) (u : Dict) (scope : String)
        (r : Option Dict) (st' : AdvState),
        adv_edit_profile st ptype nm u scope r = Except.ok st' → advCtxInv st')
    ∧ (∀ (st : AdvState) (ptype nm : String) (scope : String) (r : Option Dict)
        (st' : AdvState),
        adv_delete_profile st ptype nm scope r = Except.ok st' → advCtxInv st')
    ∧ (∀ (st : AdvState) (ptype nm : String) (scope : String) (r : Option Dict)
        (st' : AdvState),
        adv_set_default_profile st ptype nm scope r = Except.ok st' → advCtxInv st')
    ∧ (∀ (st : AdvState) (nm : String) (v : JValue) (scope : String)
        (r : Option Dict) (st' : AdvState),
        adv_set_setting st nm v scope r = Except.ok st' → advCtxInv st') :=
  ⟨initRT_inv, rt_save_config_inv, rt_update_config_inv, rt_create_profile_inv,
   rt_edit_profile_inv, rt_delete_profile_inv, rt_set_default_profile_inv,
   rt_set_setting_inv, adv_save_config_inv, adv_update_config_inv,
   adv_create_profile_inv, adv_edit_profile_inv, adv_delete_profile_inv,
   adv_set_default_profile_inv, adv_set_setting_inv⟩

/-- Witness for C2 (amended) at a concrete save: the context of the
resulting state is the rebuilt one. -/
theorem claim2_context_rebuilt_amended_witness :
    rtCtxInv { global_config := [("a", JValue.num 1)], local_config := [],
               named_config := none, named_config_path := none, cli_args := [],
               context := build_runtime_context [("a", JValue.num 1)] [] none [] } :=
  claim2_context_rebuilt_amended.2.1
    { global_config := [], local_config := [], named_config := none,
      named_config_path := none, cli_args := [], context := [] }
    [("a", JValue.num 1)] "global" _ rfl

/-- C4 counterexample: the two _build_runtime_context implementations do not
produce the same merged effective configuration — with empty documents and
empty CLI arguments the RTSettings context has no `commands` key while the
AdvancedRTSettings context carries `commands: {}` from its larger
DEFAULT_CONFIG. -/
theorem claim4_counterexample :
    jlookup (build_runtime_context [] [] none []) "commands" = none
    ∧ jlookup (advContext [] [] none []) "commands" = some (JValue.obj [])
    ∧ build_runtime_context [] [] none [] ≠ advContext [] [] none [] := by
  have hrt : jlookup (build_runtime_context [] [] none []) "commands" = none := by
    unfold build_runtime_context
    simp only [show isNotNone (jlookup ([] : Dict) "file_path") = false from rfl,
      show scopeIsGlobal ([] : Dict) = false from rfl, Bool.false_eq_true, if_false]
    rw [deep_merge_nil, deep_merge_nil, jlookup_jset, jlookup_jset,
      if_neg (by decide : ¬("cli_args" = "commands")),
      if_neg (by decide : ¬("current_scope" = "commands"))]
    rfl
  have hadv : jlookup (advContext [] [] none []) "commands"
      = some (JValue.obj []) := by
    unfold advContext adv_build_runtime_context
    rw [show advFlags ([] : Dict) = (false, false, false) from by decide]
    simp only [advContextCore, Bool.false_eq_true, if_false, Bool.false_and]
    rw [deep_merge_nil, deep_merge_nil, jlookup_jset, jlookup_jset,
      if_neg (by decide : ¬("cli_args" = "commands")),
      if_neg (by decide : ¬("current_scope" = "commands"))]
    rfl
  refine ⟨hrt, hadv, ?_⟩
  intro h
  rw [h, hadv] at hrt
  exact Option.noConfusion hrt

/-- C4 (amended): the two _build_runtime_context implementations are
behaviourally equivalent except for the `commands` section contributed only
by the advanced DEFAULT_CONFIG — for every fixed global, local and optional
named document and CLI dictionary (with no raw sys.argv entry, a file_path
that is absent, None, or truthy, and a rebuild whose disk re-read returns
nothing), the two effective configurations agree at every key other than
`commands`, in particular on the current_scope tag and the stored CLI
arguments. -/
theorem claim4_builders_agree_amended :
    ∀ (g l : Dict) (n : Option Dict) (cli : Dict),
      jlookup cli "sys.argv" = none →
      (jlookup cli "file_path" = none ∨ jlookup cli "file_path" = some JValue.null
        ∨ ∃ v, jlookup cli "file_path" = some v ∧ pyTruthy v = true) →
      ∀ k, k ≠ "commands" →
        jlookup (build_runtime_context g l n cli) k
          = jlookup (advContext g l n cli) k := by
  intro g l n cli hargv hfp k hk
  have hA1 : ∀ k, k ≠ "commands" →
      jlookup (deep_merge DEFAULT_CONFIG_RT g) k
        = jlookup (deep_merge DEFAULT_CONFIG_ADV g) k :=
    deep_merge_agree g "commands" _ _ default_config_agree
  have hA2 : ∀ k, k ≠ "commands" →
      jlookup (deep_merge (deep_merge DEFAULT_CONFIG_RT g) l) k
        = jlookup (deep_merge (deep_merge DEFAULT_CONFIG_ADV g) l) k :=
    deep_merge_agree l "commands" _ _ hA1
  have hA3 : ∀ k, k ≠ "commands" →
      jlookup (deep_merge (deep_merge (deep_merge DEFAULT_CONFIG_RT g) l)
          (namedDict n)) k
        = jlookup (deep_merge (deep_merge (deep_merge DEFAULT_CONFIG_ADV g) l)
          (namedDict n)) k :=
    deep_merge_agree (namedDict n) "commands" _ _ hA2
  rcases hfp with hfp | hfp | ⟨v, hfp, hvt⟩
  · have hfl := advFlags_no_file cli hargv (Or.inl hfp)
    have hrt : isNotNone (jlookup cli "file_path") = false := by rw [hfp]; rfl
    unfold build_runtime_context advContext adv_build_runtime_context
    rw [hfl, hrt]
    simp only [advContextCore, Bool.false_eq_true, if_false, Bool.false_and]
    by_cases hg : scopeIsGlobal cli
    · simp only [hg, if_true]
      exact jset_tags_agree _ _ cli _ hA1 k hk
    · simp only [hg, Bool.false_eq_true, if_false]
      exact jset_tags_agree _ _ cli _ hA2 k hk
  · have hfl := advFlags_no_file cli hargv (Or.inr hfp)
    have hrt : isNotNone (jlookup cli "file_path") = false := by rw [hfp]; rfl
    unfold build_runtime_context advContext adv_build_runtime_context
    rw [hfl, hrt]
    simp only [advContextCore, Bool.false_eq_true, if_false, Bool.false_and]
    by_cases hg : scopeIsGlobal cli
    · simp only [hg, if_true]
      exact jset_tags_agree _ _ cli _ hA1 k hk
    · simp only [hg, Bool.false_eq_true, if_false]
      exact jset_tags_agree _ _ cli _ hA2 k hk
  · have hfl := advFlags_with_file cli v hargv hfp hvt
    have hrt : isNotNone (jlookup cli "file_path") = true := by
      rw [hfp]
      cases v <;> simp [pyTruthy] at hvt ⊢ <;> rfl
    unfold build_runtime_context advContext adv_build_runtime_context
    rw [hfl, hrt]
    simp only [advContextCore, if_true, Bool.true_and]
    by_cases hn : namedTruthy n
    · simp only [hn, Bool.not_true, Bool.and_false, Bool.false_eq_true, if_false,
        if_true]
      exact jset_tags_agree _ _ cli _ hA3 k hk
    · simp only [hn, Bool.not_false, Bool.and_true, if_true, Bool.false_eq_true,
        if_false]
      exact jset_tags_agree _ _ cli _ hA2 k hk

/-- Witness for C4 (amended) at concrete inputs. -/
theorem claim4_builders_agree_amended_witness :
    jlookup (build_runtime_context [("a", JValue.num 7)] [] none []) "a"
      = jlookup (advContext [("a", JValue.num 7)] [] none []) "a" :=
  claim4_builders_agree_amended [("a", JValue.num 7)] [] none [] rfl
    (Or.inl rfl) "a" (by decide)

/-- C8: profile creation is per scope with identity by name only — for a
scope whose document has the usual shape, create_profile raises ValueError
when a profile with the name carried by the new profile already exists in
that scope's section for the profile type; otherwise it stores the profile
under its name in that single scope's document, creating the profile-type
section when absent, and leaves the documents of the other scopes
unchanged.  The same holds for both settings classes. -/
theorem claim8_create_profile_per_scope :
    (∀ (st : RTState) (ptype : String) (profile : Dict) (nm scope : String)
        (cfg P sec : Dict) (v : JValue),
        rt_get_config st scope = Except.ok cfg →
        jlookup cfg "profiles" = some (JValue.obj P) →
        jlookup profile "name" = some (JValue.str nm) →
        jlookup P ptype = some (JValue.obj sec) →
        jlookup sec nm = some v →
        rt_create_profile st ptype profile scope
          = Except.error ("Profile already exists: " ++ nm))
    ∧ (∀ (st : RTState) (ptype : String) (profile : Dict) (nm scope : String)
        (cfg P sec : Dict),
        rt_get_config st scope = Except.ok cfg →
        jlookup cfg "profiles" = some (JValue.obj P) →
        jlookup profile "name" = some (JValue.str nm) →
        jlookup P ptype = some (JValue.obj sec) →
        jlookup sec nm = none →
        rtScopeOk st scope = true →
        ∃ st', rt_create_profile st ptype profile scope = Except.ok st'
          ∧ rtScopeDoc st' scope = some (jset cfg "profiles"
              (JValue.obj (jset P ptype
                (JValue.obj (jset sec nm (JValue.obj profile))))))
          ∧ rtOthersUnchanged st st' scope)
    ∧ (∀ (st : RTState) (ptype : String) (profile : Dict) (nm scope : String)
        (cfg P : Dict),
        rt_get_config st scope = Except.ok cfg →
        jlookup cfg "profiles" = some (JValue.obj P) →
        jlookup profile "name" = some (JValue.str nm) →
        jlookup P ptype = none →
        rtScopeOk st scope = true →
        ∃ st', rt_create_profile st ptype profile scope = Except.ok st'
          ∧ rtScopeDoc st' scope = some (jset cfg "profiles"
              (JValue.obj (jset P ptype
                (JValue.obj [(nm, JValue.obj profile)]))))
          ∧ rtOthersUnchanged st st' scope)
    ∧ (∀ (st : AdvState) (ptype : String) (profile : Dict) (nm scope : String)
        (cfg P sec : Dict) (v : JValue),
        adv_get_config st scope = Except.ok cfg →
        jlookup cfg "profiles" = some (JValue.obj P) →
        jlookup profile "name" = some (JValue.str nm) →
        jlookup P ptype = some (JValue.obj sec) →
        jlookup sec nm = some v →
        adv_create_profile st ptype profile scope none
          = Except.error ("Profile already exists: " ++ nm))
    ∧ (∀ (st : AdvState) (ptype : String) (profile : Dict) (nm scope : String)
        (cfg P sec : Dict),
        adv_get_config st scope = Except.ok cfg →
        jlookup cfg "profiles" = some (JValue.obj P) →
        jlookup profile "name" = some (JValue.str nm) →
        jlookup P ptype = some (JValue.obj sec) →
        jlookup sec nm = none →
        advScopeOk st scope = true →
        ∃ st', adv_create_profile st ptype profile scope none = Except.ok st'
          ∧ advScopeDoc st' scope = some (jset cfg "profiles"
              (JValue.obj (jset P ptype
                (JValue.obj (jset sec nm (JValue.obj profile))))))
          ∧ advOthersUnchanged st st' scope)
    ∧ (∀ (st : AdvState) (ptype : String) (profile : Dict) (nm scope : String)
        (cfg P : Dict),
        adv_get_config st scope = Except.ok cfg →
        jlookup cfg "profiles" = some (JValue.obj P) →
        jlookup profile "name" = some (JValue.str nm) →
        jlookup P ptype = none →
        advScopeOk st scope = true →
        ∃ st', adv_create_profile st ptype profile scope none = Except.ok st'
          ∧ advScopeDoc st' scope = some (jset cfg "profiles"
              (JValue.obj (jset P ptype
                (JValue.obj [(nm, JValue.obj profile)]))))
          ∧ advOthersUnchanged st st' scope) := by
  refine ⟨?_, ?_, ?_, ?_, ?_, ?_⟩
  · intro st ptype profile nm scope cfg P sec v hcfg h1 h2 h3 h4
    unfold rt_create_profile
    rw [hcfg, except_bind_ok,
      create_profile_doc_dup cfg P sec profile ptype nm v h1 h2 h3 h4,
      except_bind_error]
  · intro st ptype profile nm scope cfg P sec hcfg h1 h2 h3 h4 hok
    unfold rt_create_profile
    rw [hcfg, except_bind_ok,
      create_profile_doc_fresh cfg P sec profile ptype nm h1 h2 h3 h4,
      except_bind_ok]
    exact rt_save_result st _ scope hok
  · intro st ptype profile nm scope cfg P hcfg h1 h2 h3 hok
    unfold rt_create_profile
    rw [hcfg, except_bind_ok,
      create_profile_doc_newsec cfg P profile ptype nm h1 h2 h3,
      except_bind_ok]
    exact rt_save_result st _ scope hok
  · intro st ptype profile nm scope cfg P sec v hcfg h1 h2 h3 h4
    unfold adv_create_profile
    rw [hcfg, except_bind_ok,
      create_profile_doc_dup cfg P sec profile ptype nm v h1 h2 h3 h4,
      except_bind_error]
  · intro st ptype profile nm scope cfg P sec hcfg h1 h2 h3 h4 hok
    unfold adv_create_profile
    rw [hcfg, except_bind_ok,
      create_profile_doc_fresh cfg P sec profile ptype nm h1 h2 h3 h4,
      except_bind_ok]
    exact adv_save_result st _ scope hok
  · intro st ptype profile nm scope cfg P hcfg h1 h2 h3 hok
    unfold adv_create_profile
    rw [hcfg, except_bind_ok,
      create_profile_doc_newsec cfg P profile ptype nm h1 h2 h3,
      except_bind_ok]
    exact adv_save_result st _ scope hok

/-- Witness for C8: creating a profile whose name already exists in the
chosen scope raises the duplicate-name ValueError. -/
theorem claim8_create_profile_per_scope_witness :
    rt_create_profile
      { global_config :=
          [("profiles", JValue.obj [("llm",
              JValue.obj [("p1", JValue.obj [("name", JValue.str "p1")])])]),
           ("defaults", JValue.obj [])],
        local_config := [], named_config := none, named_config_path := none,
        cli_args := [], context := [] }
      "llm" [("name", JValue.str "p1")] "global"
      = Except.error ("Profile already exists: " ++ "p1") :=
  claim8_create_profile_per_scope.1 _ "llm" [("name", JValue.str "p1")] "p1"
    "global" _
    [("llm", JValue.obj [("p1", JValue.obj [("name", JValue.str "p1")])])]
    [("p1", JValue.obj [("name", JValue.str "p1")])]
    (JValue.obj [("name", JValue.str "p1")])
    rfl rfl rfl rfl rfl

/-- C9: delete_profile removes exactly the named profile from the chosen
scope's document — the profile-type section loses the deleted name and keeps
every other binding — and when the deleted profile was recorded as that
type's default in the same scope the default is reset to None, while
otherwise the defaults section of the document is left unchanged; the other
scopes' documents are untouched.  The same holds for both settings
classes. -/
theorem claim9_delete_profile_default_reset :
    (∀ (d : Dict) (k k' : String),
        jlookup (jerase d k) k' = if k = k' then none else jlookup d k')
    ∧ (∀ (st : RTState) (ptype nm scope : String) (cfg P sec defaults : Dict),
        rt_get_config st scope = Except.ok cfg →
        jlookup cfg "profiles" = some (JValue.obj P) →
        jlookup P ptype = some (JValue.obj sec) →
        (jlookup sec nm).isSome = true →
        jlookup cfg "defaults" = some (JValue.obj defaults) →
        rtScopeOk st scope = true →
        (isDefaultHit defaults ptype nm = true →
          ∃ st', rt_delete_profile st ptype nm scope = Except.ok st'
            ∧ rtScopeDoc st' scope = some (jset (jset cfg "profiles"
                (JValue.obj (jset P ptype (JValue.obj (jerase sec nm)))))
                "defaults" (JValue.obj (jset defaults ptype JValue.null)))
            ∧ rtOthersUnchanged st st' scope)
        ∧ (isDefaultHit defaults ptype nm = false →
          ∃ st', rt_delete_profile st ptype nm scope = Except.ok st'
            ∧ rtScopeDoc st' scope = some (jset cfg "profiles"
                (JValue.obj (jset P ptype (JValue.obj (jerase sec nm)))))
            ∧ jlookup (jset cfg "profiles"
                (JValue.obj (jset P ptype (JValue.obj (jerase sec nm)))))
                "defaults" = jlookup cfg "defaults"
            ∧ rtOthersUnchanged st st' scope))
    ∧ (∀ (st : AdvState) (ptype nm scope : String) (cfg P sec defaults : Dict),
        adv_get_config st scope = Except.ok cfg →
        jlookup cfg "profiles" = some (JValue.obj P) →
        jlookup P ptype = some (JValue.obj sec) →
        (jlookup sec nm).isSome = true →
        jlookup cfg "defaults" = some (JValue.obj defaults) →
        advScopeOk st scope = true →
        (isDefaultHit defaults ptype nm = true →
          ∃ st', adv_delete_profile st ptype nm scope none = Except.ok st'
            ∧ advScopeDoc st' scope = some (jset (jset cfg "profiles"
                (JValue.obj (jset P ptype (JValue.obj (jerase sec nm)))))
                "defaults" (JValue.obj (jset defaults ptype JValue.null)))
            ∧ advOthersUnchanged st st' scope)
        ∧ (isDefaultHit defaults ptype nm = false →
          ∃ st', adv_delete_profile st ptype nm scope none = Except.ok st'
            ∧ advScopeDoc st' scope = some (jset cfg "profiles"
                (JValue.obj (jset P ptype (JValue.obj (jerase sec nm)))))
            ∧ jlookup (jset cfg "profiles"
                (JValue.obj (jset P ptype (JValue.obj (jerase sec nm)))))
                "defaults" = jlookup cfg "defaults"
            ∧ advOthersUnchanged st st' scope)) := by
  refine ⟨jlookup_jerase, ?_, ?_⟩
  · intro st ptype nm scope cfg P sec defaults hcfg h1 h3 h4 h5 hok
    constructor
    · intro hhit
      unfold rt_delete_profile
      rw [hcfg, except_bind_ok,
        delete_profile_doc_eq cfg P sec defaults ptype nm h1 h3 h4 h5,
        hhit]
      simp only [if_true, except_bind_ok]
      exact rt_save_result st _ scope hok
    · intro hmiss
      unfold rt_delete_profile
      rw [hcfg, except_bind_ok,
        delete_profile_doc_eq cfg P sec defaults ptype nm h1 h3 h4 h5,
        hmiss]
      simp only [Bool.false_eq_true, if_false, except_bind_ok]
      obtain ⟨st', hs1, hs2, hs3⟩ := rt_save_result st (jset cfg "profiles"
        (JValue.obj (jset P ptype (JValue.obj (jerase sec nm))))) scope hok
      refine ⟨st', hs1, hs2, ?_, hs3⟩
      rw [jlookup_jset, if_neg (by decide : ¬("profiles" = "defaults"))]
  · intro st ptype nm scope cfg P sec defaults hcfg h1 h3 h4 h5 hok
    constructor
    · intro hhit
      unfold adv_delete_profile
      rw [hcfg, except_bind_ok,
        delete_profile_doc_eq cfg P sec defaults ptype nm h1 h3 h4 h5,
        hhit]
      simp only [if_true, except_bind_ok]
      exact adv_save_result st _ scope hok
    · intro hmiss
      unfold adv_delete_profile
      rw [hcfg, except_bind_ok,
        delete_profile_doc_eq cfg P sec defaults ptype nm h1 h3 h4 h5,
        hmiss]
      simp only [Bool.false_eq_true, if_false, except_bind_ok]
      obtain ⟨st', hs1, hs2, hs3⟩ := adv_save_result st (jset cfg "profiles"
        (JValue.obj (jset P ptype (JValue.obj (jerase sec nm))))) scope hok
      refine ⟨st', hs1, hs2, ?_, hs3⟩
      rw [jlookup_jset, if_neg (by decide : ¬("profiles" = "defaults"))]

/-- Witness for C9: deleting the profile recorded as the default resets the
default for its type; the lookup characterisation of the deletion holds at a
concrete section. -/
theorem claim9_delete_profile_default_reset_witness :
    jlookup (jerase [("p1", JValue.obj []), ("p2", JValue.obj [])] "p1") "p2"
      = some (JValue.obj [])
    ∧ ∃ st', rt_delete_profile
        { global_config :=
            [("profiles", JValue.obj [("llm",
                JValue.obj [("p1", JValue.obj [("name", JValue.str "p1")])])]),
             ("defaults", JValue.obj [("llm", JValue.str "p1")])],
          local_config := [], named_config := none, named_config_path := none,
          cli_args := [], context := [] }
        "llm" "p1" "global" = Except.ok st'
      ∧ rtScopeDoc st' "global" = some (jset (jset
          [("profiles", JValue.obj [("llm",
              JValue.obj [("p1", JValue.obj [("name", JValue.str "p1")])])]),
           ("defaults", JValue.obj [("llm", JValue.str "p1")])]
          "profiles" (JValue.obj (jset
            [("llm", JValue.obj [("p1", JValue.obj [("name", JValue.str "p1")])])]
            "llm" (JValue.obj (jerase
              [("p1", JValue.obj [("name", JValue.str "p1")])] "p1")))))
          "defaults" (JValue.obj (jset [("llm", JValue.str "p1")] "llm"
            JValue.null)))
      ∧ rtOthersUnchanged
        { global_config :=
            [("profiles", JValue.obj [("llm",
                JValue.obj [("p1", JValue.obj [("name", JValue.str "p1")])])]),
             ("defaults", JValue.obj [("llm", JValue.str "p1")])],
          local_config := [], named_config := none, named_config_path := none,
          cli_args := [], context := [] } st' "global" := by
  constructor
  · exact (claim9_delete_profile_default_reset.1
      [("p1", JValue.obj []), ("p2", JValue.obj [])] "p1" "p2").trans
      (by rw [if_neg (by decide : ¬("p1" = "p2"))]; rfl)
  · exact (claim9_delete_profile_default_reset.2.1
      { global_config :=
          [("profiles", JValue.obj [("llm",
              JValue.obj [("p1", JValue.obj [("name", JValue.str "p1")])])]),
           ("defaults", JValue.obj [("llm", JValue.str "p1")])],
        local_config := [], named_config := none, named_config_path := none,
        cli_args := [], context := [] }
      "llm" "p1" "global"
      [("profiles", JValue.obj [("llm",
          JValue.obj [("p1", JValue.obj [("name", JValue.str "p1")])])]),
       ("defaults", JValue.obj [("llm", JValue.str "p1")])]
      [("llm", JValue.obj [("p1", JValue.obj [("name", JValue.str "p1")])])]
      [("p1", JValue.obj [("name", JValue.str "p1")])]
      [("llm", JValue.str "p1")]
      rfl rfl rfl rfl rfl rfl).1
      (by simp [isDefaultHit, jlookup, JValue.beq])
